import Mathlib

set_option maxRecDepth 4000

/-
  Verification development for the agoda-wp-automation repository.

  The repository holds four near-duplicate Next.js route handlers:
    - `RA`: the first handler in src/app/api/wp/post/route.ts (lines 1-358),
    - `RB`: the second handler in the same file (lines 358-1077),
    - `P0`: src/unnamed/part_000,
    - `P1`: src/unnamed/part_001.
  Each variant is embedded shallowly in its own namespace, keeping the source
  function names.  External effects (fetch, `new URL`, `String.normalize`) are
  modelled as explicit oracle/response parameters; the sequence of outbound
  calls a handler issues is returned as an explicit trace.  Machine-level JS
  details that matter to the claims (UTF-16 lengths, 32-bit hash overflow,
  truthiness, `??` vs `||`) are modelled explicitly; IEEE-754 float rendering is
  restricted to integral values, which is all the claims exercise.
-/

/-! ### A model of JSON values and of the JavaScript coercions the code uses -/

/-- A JSON value as the handlers see request bodies and upstream responses.
    Numbers are modelled as integers (no claim depends on non-integral floats). -/
inductive Json where
  | null
  | bool (b : Bool)
  | num (n : Int)
  | str (s : String)
  | arr (xs : List Json)
  | obj (fs : List (String × Json))

/-- Truthiness of a JSON value in JavaScript (`undefined` is handled at `Option` level). -/
def jsTruthy : Json → Bool
  | .null => false
  | .bool b => b
  | .num n => n != 0
  | .str s => s != ""
  | .arr _ => true
  | .obj _ => true

mutual
/-- Stringification `String(v)` of a JSON value, as JavaScript renders it. -/
def jsToString : Json → String
  | .null => "null"
  | .bool b => if b then "true" else "false"
  | .num n => toString n
  | .str s => s
  | .arr xs => jsToStringArr xs
  | .obj _ => "[object Object]"

/-- Rendering of `Array.prototype.toString`: elements joined with commas, `null` printing empty. -/
def jsToStringArr : List Json → String
  | [] => ""
  | [.null] => ""
  | [x] => jsToString x
  | .null :: y :: xs => "," ++ jsToStringArr (y :: xs)
  | x :: y :: xs => jsToString x ++ "," ++ jsToStringArr (y :: xs)
end

/-- Property access `o.k` on a JSON object; `none` plays the role of `undefined`. -/
def getF (fs : List (String × Json)) (k : String) : Option Json :=
  (fs.find? (fun p => p.1 == k)).map (fun p => p.2)

/-- Optional-chaining access `j?.k`: `undefined` on non-objects. -/
def jget (j : Json) (k : String) : Option Json :=
  match j with
  | .obj fs => getF fs k
  | _ => none

/-- Optional-chaining index `j?.[i]` on arrays. -/
def jidx (j : Json) (i : Nat) : Option Json :=
  match j with
  | .arr xs => xs.get? i
  | _ => none

/-- Disjunction `a || b` for a possibly-undefined `a`: keeps `a` when truthy. -/
def jsOrU (a : Option Json) (b : Json) : Json :=
  match a with
  | some v => if jsTruthy v then v else b
  | none => b

/-- Coalescing `a ?? b` for a possibly-undefined `a`: keeps `a` unless null/undefined. -/
def jsCoal (a : Option Json) (b : Json) : Json :=
  match a with
  | some .null => b
  | some v => v
  | none => b

/-- Strict equality `v === "s"` of an arbitrary value against a string literal. -/
def isStr (v : Json) (s : String) : Bool :=
  match v with
  | .str t => t == s
  | _ => false

/-! ### JavaScript string primitives -/

/-- The whitespace class of `String.prototype.trim` (the code points the code can meet). -/
def jsIsWs (c : Char) : Bool :=
  c = ' ' || c = '\t' || c = '\n' || c = '\r' || c = '\x0b' || c = '\x0c' ||
  c = ' ' || c = '﻿'

/-- `trim` on a character list: strip leading and trailing whitespace. -/
def jsTrimL (l : List Char) : List Char :=
  ((l.dropWhile jsIsWs).reverse.dropWhile jsIsWs).reverse

/-- `String.prototype.trim`. -/
def jsTrim (s : String) : String :=
  String.mk (jsTrimL s.data)

/-- Conversion `Number(v)`, restricted to the integral results the handlers exercise;
    `none` models `NaN` (and any non-integral result, which no claim reaches). -/
def jsNumberO : Json → Option Int
  | .null => some 0
  | .bool b => some (if b then 1 else 0)
  | .num n => some n
  | .str s => let t := jsTrim s; if t = "" then some 0 else t.toInt?
  | .arr [] => some 0
  | .arr [x] => jsNumberO x
  | .arr (_ :: _ :: _) => none
  | .obj _ => none

/-- Does `l` start with `p`? -/
def startsWithL : List Char → List Char → Bool
  | _, [] => true
  | [], _ :: _ => false
  | c :: l, d :: p => c = d && startsWithL l p

/-- `String.prototype.includes`, on character lists. -/
def containsSub : List Char → List Char → Bool
  | [], p => p.isEmpty
  | c :: l, p => startsWithL (c :: l) p || containsSub l p

/-- `s.includes(p)`. -/
def jsIncludes (s p : String) : Bool :=
  containsSub s.data p.data

/-- The number of UTF-16 code units of a character (JS `String.length` counts these). -/
def utf16Count (c : Char) : Nat :=
  if c.toNat < 65536 then 1 else 2

/-- Running total of UTF-16 code units.  The redundant zero test keeps the
    accumulator in literal form step by step, so the kernel evaluates the
    length of a long string in constant stack depth. -/
def utf16LenAux : List Char → Nat → Nat
  | [], acc => acc
  | c :: r, acc =>
      if acc + utf16Count c = 0 then 0 else utf16LenAux r (acc + utf16Count c)

/-- JavaScript `String.prototype.length`: UTF-16 code units, not code points. -/
def jsLen (s : String) : Nat :=
  utf16LenAux s.data 0

/-- The UTF-16 code units of a character (surrogate pair for astral code points). -/
def utf16Units (c : Char) : List Nat :=
  if c.toNat < 65536 then [c.toNat]
  else
    let v := c.toNat - 65536
    [55296 + v / 1024, 56320 + v % 1024]

/-- `charCodeAt` sequence of a string: its UTF-16 code units in order. -/
def utf16Of (s : String) : List Nat :=
  s.data.flatMap utf16Units

/-- ASCII lower-casing, the fragment of `toLowerCase` the handlers rely on. -/
def jsLower (s : String) : String :=
  String.mk (s.data.map Char.toLower)

/-- ASCII upper-casing, the fragment of `toUpperCase` the handlers rely on. -/
def jsUpper (s : String) : String :=
  String.mk (s.data.map Char.toUpper)

/-- Keep only the characters satisfying `p` (the shape of `replace(/[^...]/g, "")`). -/
def keepChars (p : Char → Bool) (s : String) : String :=
  String.mk (s.data.filter p)

/-- Split of a character list at every occurrence of one character
    (the shape of JS `split(":")` and `split("\n")`). -/
def splitOnCharL (c : Char) : List Char → List (List Char)
  | [] => [[]]
  | a :: r =>
      if a = c then [] :: splitOnCharL c r
      else
        match splitOnCharL c r with
        | t :: ts => (a :: t) :: ts
        | [] => [[a]]

/-- JavaScript `s.split(sep)` for a one-character separator. -/
def jsSplitOnChar (s : String) (c : Char) : List String :=
  (splitOnCharL c s.data).map String.mk

/-- First-occurrence deduplication under `eqf`: JS's
    `filter((v,i,arr) => arr.findIndex(eqf) === i)` and `Set` insertion order. -/
def dedupBy (eqf : α → α → Bool) (l : List α) : List α :=
  l.foldl (fun acc x => if acc.any (eqf x) then acc else acc ++ [x]) []

/-! ### Percent-encoding, base64, UTF-8/UTF-16 -/

/-- Upper-case hexadecimal digit. -/
def hexDigit (n : Nat) : Char :=
  "0123456789ABCDEF".data.getD n '0'

/-- UTF-8 bytes of one character. -/
def utf8Bytes (c : Char) : List Nat :=
  let n := c.toNat
  if n < 128 then [n]
  else if n < 2048 then [192 + n / 64, 128 + n % 64]
  else if n < 65536 then [224 + n / 4096, 128 + n / 64 % 64, 128 + n % 64]
  else [240 + n / 262144, 128 + n / 4096 % 64, 128 + n / 64 % 64, 128 + n % 64]

/-- `%XX` escape of one byte. -/
def pctByte (b : Nat) : List Char :=
  ['%', hexDigit (b / 16), hexDigit (b % 16)]

/-- The unreserved set of `encodeURIComponent`. -/
def uriUnreserved (c : Char) : Bool :=
  ('a' ≤ c && c ≤ 'z') || ('A' ≤ c && c ≤ 'Z') || ('0' ≤ c && c ≤ '9') ||
  c = '-' || c = '_' || c = '.' || c = '!' || c = '~' || c = '*' || c = '\'' ||
  c = '(' || c = ')'

/-- `encodeURIComponent`. -/
def encodeURIComponent (s : String) : String :=
  String.mk (s.data.flatMap (fun c =>
    if uriUnreserved c then [c] else (utf8Bytes c).flatMap pctByte))

/-- `application/x-www-form-urlencoded` serialization of one value, as
    `URLSearchParams.toString` uses (space becomes `+`). -/
def formEncode (s : String) : String :=
  String.mk (s.data.flatMap (fun c =>
    if ('a' ≤ c && c ≤ 'z') || ('A' ≤ c && c ≤ 'Z') || ('0' ≤ c && c ≤ '9') ||
       c = '*' || c = '-' || c = '.' || c = '_' then [c]
    else if c = ' ' then ['+']
    else (utf8Bytes c).flatMap pctByte))

/-- One base64 alphabet character. -/
def b64Char (n : Nat) : Char :=
  "ABCDEFGHIJKLMNOPQRSTUVWXYZabcdefghijklmnopqrstuvwxyz0123456789+/".data.getD n 'A'

/-- Base64 of a byte list, with padding. -/
def base64Bytes : List Nat → String
  | [] => ""
  | [a] =>
      String.mk [b64Char (a / 4), b64Char (a % 4 * 16), '=', '=']
  | [a, b] =>
      String.mk [b64Char (a / 4), b64Char (a % 4 * 16 + b / 16), b64Char (b % 16 * 4), '=']
  | a :: b :: c :: rest =>
      String.mk [b64Char (a / 4), b64Char (a % 4 * 16 + b / 16),
                 b64Char (b % 16 * 4 + c / 64), b64Char (c % 64)] ++ base64Bytes rest

/-- `Buffer.from(s, "utf8").toString("base64")`. -/
def btoaUtf8 (s : String) : String :=
  base64Bytes (s.data.flatMap utf8Bytes)

/-! ### Dates

    A `JsDate` is the civil calendar datetime the handlers observe through the
    local-time accessors.  The deployment platform (a serverless host) runs with
    the process timezone fixed to UTC, so `toISOString` renders the same civil
    fields; this development adopts that identification. -/

structure JsDate where
  year : Int
  month : Nat      -- 1..12 (the sources always print `getMonth() + 1`)
  day : Nat        -- 1..31
  hour : Nat := 0
  minute : Nat := 0
  second : Nat := 0
  ms : Nat := 0
deriving DecidableEq

/-- Gregorian leap year. -/
def isLeap (y : Int) : Bool :=
  y % 4 = 0 && (y % 100 != 0 || y % 400 = 0)

/-- Days in a month. -/
def daysInMonth (y : Int) (m : Nat) : Nat :=
  if m = 1 then 31 else if m = 2 then (if isLeap y then 29 else 28)
  else if m = 3 then 31 else if m = 4 then 30 else if m = 5 then 31
  else if m = 6 then 30 else if m = 7 then 31 else if m = 8 then 31
  else if m = 9 then 30 else if m = 10 then 31 else if m = 11 then 30 else 31

/-- A well-formed calendar date. -/
def ValidDate (d : JsDate) : Prop :=
  1 ≤ d.month ∧ d.month ≤ 12 ∧ 1 ≤ d.day ∧ d.day ≤ daysInMonth d.year d.month

/-- Normalize an overflowed day-of-month, as `Date.prototype.setDate` does
    (fuel-bounded: each step removes at least 28 days). -/
def normDate : Nat → JsDate → JsDate
  | 0, d => d
  | fuel + 1, d =>
      if d.day > daysInMonth d.year d.month then
        normDate fuel
          { d with
            day := d.day - daysInMonth d.year d.month,
            month := if d.month = 12 then 1 else d.month + 1,
            year := if d.month = 12 then d.year + 1 else d.year }
      else d

/-- `d.setDate(d.getDate() + n)`. -/
def jsAddDays (d : JsDate) (n : Nat) : JsDate :=
  normDate (n + 2) { d with day := d.day + n }

/-- `d.setHours(h, mi, s, ms)`. -/
def jsSetHours (d : JsDate) (h mi s msv : Nat) : JsDate :=
  { d with hour := h, minute := mi, second := s, ms := msv }

/-- Zero-pad to two digits (`String(n).padStart(2, "0")`). -/
def pad2 (n : Nat) : String :=
  if n < 10 then "0" ++ toString n else toString n

/-- Zero-pad to three digits, for milliseconds in ISO rendering. -/
def pad3 (n : Nat) : String :=
  if n < 10 then "00" ++ toString n else if n < 100 then "0" ++ toString n else toString n

/-- `Date.prototype.toISOString` under the UTC process timezone. -/
def isoRender (d : JsDate) : String :=
  toString d.year ++ "-" ++ pad2 d.month ++ "-" ++ pad2 d.day ++ "T" ++
  pad2 d.hour ++ ":" ++ pad2 d.minute ++ ":" ++ pad2 d.second ++ "." ++ pad3 d.ms ++ "Z"

/-- The specification-side successor day of a calendar date. -/
def civilSucc (d : JsDate) : JsDate :=
  if d.day < daysInMonth d.year d.month then { d with day := d.day + 1 }
  else
    { d with
      day := 1,
      month := if d.month = 12 then 1 else d.month + 1,
      year := if d.month = 12 then d.year + 1 else d.year }

/-! ### JSON serialization (`JSON.stringify`) -/

/-- String-body escaping of `JSON.stringify` (the control characters the
    handlers' data can contain). -/
def jsonEscChar (c : Char) : List Char :=
  if c = '"' then ['\\', '"']
  else if c = '\\' then ['\\', '\\']
  else if c = '\n' then ['\\', 'n']
  else if c = '\r' then ['\\', 'r']
  else if c = '\t' then ['\\', 't']
  else [c]

/-- A JSON string literal as `JSON.stringify` renders it. -/
def jsonQuote (s : String) : String :=
  String.mk ('"' :: s.data.flatMap jsonEscChar ++ ['"'])

mutual
/-- Compact `JSON.stringify(v)` (no space argument). -/
def jsonStringify : Json → String
  | .null => "null"
  | .bool b => if b then "true" else "false"
  | .num n => toString n
  | .str s => jsonQuote s
  | .arr xs => "[" ++ jsonStringifyArr xs ++ "]"
  | .obj fs => "\x7b" ++ jsonStringifyObj fs ++ "\x7d"

def jsonStringifyArr : List Json → String
  | [] => ""
  | [x] => jsonStringify x
  | x :: y :: xs => jsonStringify x ++ "," ++ jsonStringifyArr (y :: xs)

def jsonStringifyObj : List (String × Json) → String
  | [] => ""
  | [(k, v)] => jsonQuote k ++ ":" ++ jsonStringify v
  | (k, v) :: p :: fs => jsonQuote k ++ ":" ++ jsonStringify v ++ "," ++ jsonStringifyObj (p :: fs)
end

mutual
/-- Pretty `JSON.stringify(v, null, 2)` at indentation depth `ind` (in units of
    two spaces). -/
def jsonStringifyP (ind : Nat) : Json → String
  | .null => "null"
  | .bool b => if b then "true" else "false"
  | .num n => toString n
  | .str s => jsonQuote s
  | .arr [] => "[]"
  | .arr (x :: xs) =>
      "[\n" ++ jsonStringifyPArr (ind + 1) (x :: xs) ++ "\n" ++ indentOf ind ++ "]"
  | .obj [] => "\x7b\x7d"
  | .obj (f :: fs) =>
      "\x7b\n" ++ jsonStringifyPObj (ind + 1) (f :: fs) ++ "\n" ++ indentOf ind ++ "\x7d"

def jsonStringifyPArr (ind : Nat) : List Json → String
  | [] => ""
  | [x] => indentOf ind ++ jsonStringifyP ind x
  | x :: y :: xs =>
      indentOf ind ++ jsonStringifyP ind x ++ ",\n" ++ jsonStringifyPArr ind (y :: xs)

def jsonStringifyPObj (ind : Nat) : List (String × Json) → String
  | [] => ""
  | [(k, v)] => indentOf ind ++ jsonQuote k ++ ": " ++ jsonStringifyP ind v
  | (k, v) :: p :: fs =>
      indentOf ind ++ jsonQuote k ++ ": " ++ jsonStringifyP ind v ++ ",\n" ++
      jsonStringifyPObj ind (p :: fs)

def indentOf : Nat → String
  | 0 => ""
  | n + 1 => "  " ++ indentOf n
end

/-! ### Outbound calls, fetch responses and handler results -/

/-- One outbound HTTP request a handler can make. -/
inductive Call where
  | agodaLookup
  | agodaScrape
  | categorySearch
  | categoryCreate (ok : Bool)
  | imageSourceFetch
  | mediaUpload (ok : Bool)
  | mediaAltUpdate
  | wpPublish (ok : Bool)
deriving DecidableEq

/-- Calls that modify external state when they succeed (the alt-text update is
    fire-and-forget, so its success is not observed by the handler). -/
def mutatingCall : Call → Bool
  | .categoryCreate ok => ok
  | .mediaUpload ok => ok
  | .mediaAltUpdate => true
  | .wpPublish ok => ok
  | _ => false

/-- The response of one upstream `fetch`, as the handlers consume it: `json` is
    the result of parsing `text` when that parse succeeds (`none` on failure;
    for the `res.json()` style it also models a rejected promise). -/
structure FetchResp where
  ok : Bool
  status : Nat
  text : String := ""
  json : Option Json := none

/-- An error thrown inside a handler (`message` plus the ad-hoc `detail` field
    some variants attach). -/
structure JsError where
  message : String
  detail : Option Json := none

/-- An HTTP response returned to the caller. -/
structure Resp where
  status : Nat
  body : Json

/-- A finished handler invocation: the response, the outbound-call trace, and
    the JSON body of the publish request when one was issued. -/
structure HResult where
  resp : Resp
  calls : List Call
  wpSent : Option Json := none

/-- The process environment: every variable any variant reads. -/
structure Env where
  API_KEY : Option String := none
  WP_URL : Option String := none
  WP_USERNAME : Option String := none
  WP_APP_PASSWORD : Option String := none
  AGODA_SITE_ID : Option String := none
  AGODA_API_KEY : Option String := none
  AGODA_AUTH : Option String := none
  AGODA_CID : Option String := none

/-- `process.env[k]` for the names the handlers look up dynamically. -/
def envGet (e : Env) : String → Option String
  | "API_KEY" => e.API_KEY
  | "WP_URL" => e.WP_URL
  | "WP_USERNAME" => e.WP_USERNAME
  | "WP_APP_PASSWORD" => e.WP_APP_PASSWORD
  | "AGODA_SITE_ID" => e.AGODA_SITE_ID
  | "AGODA_API_KEY" => e.AGODA_API_KEY
  | "AGODA_AUTH" => e.AGODA_AUTH
  | "AGODA_CID" => e.AGODA_CID
  | _ => none

/-- A request body: the parsed JSON object's fields (`none` = field absent). -/
def Body := List (String × Json)

/-- Field access on a request body. -/
def bget (b : Body) (k : String) : Option Json :=
  getF b k

/-- `Math.random()` draws, modelled as a stream of naturals; the `k`-th call to
    `pick` over an `n`-element array lands on index `g k % n`. -/
def RngStream := Nat → Nat

/-- Truthiness of a possibly-undefined value. -/
def jsTruthyO (o : Option Json) : Bool :=
  match o with
  | some v => jsTruthy v
  | none => false

/-- Falsiness test `!x` on an environment variable (unset or empty string). -/
def falsyS (o : Option String) : Bool :=
  o.getD "" = ""

/-- Coalescing `j ?? b` when `j` is a present value (only null falls through). -/
def coalNull (j b : Json) : Json :=
  match j with
  | .null => b
  | v => v

/-- A JSON value from a JS number (`NaN` serializes as null, as `JSON.stringify` does). -/
def jsNumJson (o : Option Int) : Json :=
  match o with
  | some n => .num n
  | none => .null

/-- Removal of a single trailing slash: `s.replace(/\/$/, "")`. -/
def stripTrailSlash (s : String) : String :=
  match s.data.getLast? with
  | some '/' => String.mk s.data.dropLast
  | _ => s

/-- Global single-character replacement `s.replace(/c/g, r)`, on character lists. -/
def repl (c : Char) (r : List Char) (l : List Char) : List Char :=
  l.flatMap (fun a => if a = c then r else [a])

/-- An inbound request: the `x-api-key` header and the JSON body parse result
    (`Except.error` carries the `SyntaxError` message `req.json()` rejects with). -/
structure Req where
  apiKeyHeader : Option String := none
  body : Except String Body := .ok []

/-! ## Variant RA: the first handler of src/app/api/wp/post/route.ts (lines 1-358) -/

namespace RA

/-- Source lines 343-350: `escapeHtml`, five sequential global replacements.
    (`String(s)` is the identity here because call sites pass `jsToString` of
    the raw value.) -/
def escapeHtml (s : String) : String :=
  String.mk (repl '\'' "&#039;".data
    (repl '"' "&quot;".data
      (repl '>' "&gt;".data
        (repl '<' "&lt;".data
          (repl '&' "&amp;".data s.data)))))

/-- Source lines 352-354. -/
def escapeHtmlAttr (s : String) : String :=
  escapeHtml s

/-- Source lines 356-358: backslash, quote and newline escaping for JSON-LD text. -/
def escapeJsonString (s : String) : String :=
  String.mk (repl '\n' [' '] (repl '"' ['\\', '"'] (repl '\\' ['\\', '\\'] s.data)))

/-- The hotel record `normalizeHotel` produces (fields keep their raw JSON values). -/
structure Hotel where
  name : Json
  address : Json
  description : Json
  reviewScore : Json
  imageURL : Json

/-- Source lines 149-162: `normalizeHotel`, first non-nullish of candidate fields. -/
def normalizeHotel (raw : Json) : Hotel :=
  { name := jsCoal (jget raw "name") (jsCoal (jget raw "hotelName") (.str "Hotel")),
    address := jsCoal (jget raw "address") (jsCoal (jget raw "hotelAddress") (.str "")),
    description := jsCoal (jget raw "description") (jsCoal (jget raw "hotelDescription") (.str "")),
    reviewScore := jsCoal (jget raw "reviewScore")
      (jsCoal (jget raw "review_score") (jsCoal (jget raw "rating") (.str ""))),
    imageURL := jsCoal (jget raw "imageURL")
      (jsCoal (jget raw "imageUrl")
        (jsCoal (jget raw "image") (jsCoal (jget raw "thumbnailUrl") (.str "")))) }

/-- Source lines 74-147: `agodaGetHotelById`.  Returns the first result or the
    thrown error, plus the outbound-call trace (empty when an env check threw
    before the fetch). -/
def agodaGetHotelById (env : Env) (resp : FetchResp) (hotelId : Json) :
    Except JsError Json × List Call :=
  if falsyS env.AGODA_SITE_ID then
    (.error ⟨"Missing env: AGODA_SITE_ID", some (.obj [("missing", .str "AGODA_SITE_ID")])⟩, [])
  else if falsyS env.AGODA_API_KEY then
    (.error ⟨"Missing env: AGODA_API_KEY", some (.obj [("missing", .str "AGODA_API_KEY")])⟩, [])
  else
    let _payload : Json :=
      .obj [("criteria", .obj [("hotelId", .arr [jsNumJson (jsNumberO hotelId)])])]
    let json : Json := if resp.text = "" then .null else resp.json.getD .null
    if !resp.ok then
      (.error ⟨"Agoda API failed: " ++ toString resp.status ++ " " ++ resp.text,
               some (coalNull json (.str resp.text))⟩, [.agodaLookup])
    else
      match jget json "results" with
      | some (.arr (first :: _)) => (.ok first, [.agodaLookup])
      | _ => (.error ⟨"Agoda fetch failed: no results", some json⟩, [.agodaLookup])

/-- Source lines 168-174: `generateAffiliateUrl`. -/
def generateAffiliateUrl (env : Env) (hotelId : Json) : Except JsError String :=
  if falsyS env.AGODA_SITE_ID then .error ⟨"Missing env: AGODA_SITE_ID", none⟩
  else
    .ok ("https://www.agoda.com/partners/partnersearch.aspx?hid=" ++
      encodeURIComponent (jsToString hotelId) ++ "&cid=" ++
      encodeURIComponent (env.AGODA_SITE_ID.getD ""))

/-- Source lines 180-280: `generatePostHTML`.  A pure string template; the
    `keyword`, hotel fields and `version` keep their raw JSON values, and every
    interpolation/`String()` coercion goes through `jsToString`. -/
def generatePostHTML (keyword : Json) (hotel : Hotel) (affiliateUrl : String)
    (version : Json) : String :=
  let imageHtml :=
    if jsTruthy hotel.imageURL then
      "<div style=\"text-align:center;margin:18px 0;\">\n         <img src=\"" ++
      escapeHtmlAttr (jsToString hotel.imageURL) ++ "\" alt=\"" ++
      escapeHtmlAttr (jsToString hotel.name) ++
      "\" style=\"max-width:100%;border-radius:12px;\" />\n       </div>"
    else ""
  let ctaHtml :=
    "\n  <div style=\"margin:28px 0;text-align:center;\">\n    <a href=\"" ++
    escapeHtmlAttr affiliateUrl ++
    "\" target=\"_blank\" rel=\"nofollow noopener\"\n       style=\"background:#ff5a5f;color:#fff;padding:14px 22px;border-radius:10px;text-decoration:none;font-weight:bold;display:inline-block;\">\n       👉 아고다 최저가 확인하기\n    </a>\n  </div>\n  "
  let faqSchema :=
    "<script type=\"application/ld+json\">\n\x7b\n  \"@context\":\"https://schema.org\",\n  \"@type\":\"FAQPage\",\n  \"mainEntity\":[\n    \x7b\n      \"@type\":\"Question\",\n      \"name\":\"" ++
    escapeJsonString (jsToString hotel.name) ++
    " 위치는 어디인가요?\",\n      \"acceptedAnswer\":\x7b\"@type\":\"Answer\",\"text\":\"" ++
    escapeJsonString (jsToString (coalNull (jsOrU (some hotel.address) (.str "주소 정보는 예약 페이지에서 확인할 수 있어요.")) (.str ""))) ++
    "\"\x7d\n    \x7d,\n    \x7b\n      \"@type\":\"Question\",\n      \"name\":\"" ++
    escapeJsonString (jsToString hotel.name) ++
    " 평점은 어떤가요?\",\n      \"acceptedAnswer\":\x7b\"@type\":\"Answer\",\"text\":\"현재 기준 평점은 " ++
    escapeJsonString (jsToString (jsOrU (some hotel.reviewScore) (.str "정보 없음"))) ++
    " 입니다.\"\x7d\n    \x7d\n  ]\n\x7d\n</script>"
  let intro :=
    "\n  <h2>" ++ escapeHtml (jsToString keyword) ++ " 추천 호텔: " ++
    escapeHtml (jsToString hotel.name) ++ "</h2>\n  <p>" ++
    escapeHtml (jsToString (jsOrU (some hotel.description)
      (.str (jsToString hotel.name ++ "의 예약 정보를 정리했어요.")))) ++
    "</p>\n  <ul>\n    " ++
    (if jsTruthy hotel.address then
      "<li><b>주소</b>: " ++ escapeHtml (jsToString hotel.address) ++ "</li>"
    else "") ++ "\n    " ++
    (if jsTruthy hotel.reviewScore then
      "<li><b>평점</b>: " ++ escapeHtml (jsToString hotel.reviewScore) ++ "</li>"
    else "") ++ "\n  </ul>\n  "
  let body :=
    if isStr version "V2" then
      "\n      <h3>장점 요약</h3>\n      <ul>\n        <li>위치/접근성, 후기 포인트를 중심으로 비교하세요.</li>\n        <li>성수기엔 가격 변동이 크니 자주 확인하는 게 좋아요.</li>\n      </ul>\n      "
    else if isStr version "V3" then
      "\n      <h3>" ++ escapeHtml (jsToString keyword) ++
      " 일정 체크리스트</h3>\n      <ol>\n        <li>체크인/체크아웃 시간</li>\n        <li>취소/환불 조건</li>\n        <li>교통/주변 편의시설</li>\n      </ol>\n      "
    else if isStr version "V4" then
      "\n      <h3>요약</h3>\n      <p><b>" ++ escapeHtml (jsToString hotel.name) ++
      "</b> 예약은 아래 버튼에서 바로 확인할 수 있어요.</p>\n      <p>FAQ 스키마가 자동 삽입되어 검색엔진에도 도움이 됩니다.</p>\n      "
    else
      "\n      <h3>한 줄 결론</h3>\n      <p>" ++ escapeHtml (jsToString hotel.name) ++
      "은(는) " ++ escapeHtml (jsToString keyword) ++
      " 조건에서 후보로 볼 만합니다.</p>\n      "
  "\n  " ++ imageHtml ++ "\n  " ++ intro ++ "\n  " ++ body ++ "\n  " ++ ctaHtml ++
  "\n  " ++ faqSchema ++ "\n  "

/-- Source lines 286-337: `publishToWordPress`.  Returns the parsed response or
    the thrown error, the call trace, and the JSON body of the publish request
    when one was issued. -/
def publishToWordPress (env : Env) (resp : FetchResp) (title content : String)
    (publishType : Json) (category : Option Int) :
    Except JsError Json × List Call × Option Json :=
  if falsyS env.WP_URL then (.error ⟨"Missing env: WP_URL", none⟩, [], none)
  else if falsyS env.WP_USERNAME then (.error ⟨"Missing env: WP_USERNAME", none⟩, [], none)
  else if falsyS env.WP_APP_PASSWORD then (.error ⟨"Missing env: WP_APP_PASSWORD", none⟩, [], none)
  else
    let status : String :=
      if isStr publishType "publish" then "publish"
      else if isStr publishType "future" then "future"
      else "draft"
    let wpBody : Json := .obj
      [("title", .str title), ("content", .str content), ("status", .str status),
       ("categories", .arr [jsNumJson category])]
    let json : Json := if resp.text = "" then .null else resp.json.getD .null
    if !resp.ok then
      (.error ⟨"WordPress publish failed: " ++ toString resp.status,
               some (coalNull json (.str resp.text))⟩, [.wpPublish false], some wpBody)
    else
      (.ok json, [.wpPublish true], some wpBody)

/-- Formatting of the catch-all block, source lines 58-67: a 502 with the thrown
    message and optional detail. -/
def catchResp (e : JsError) : Resp :=
  { status := 502, body := .obj [("error", .str e.message), ("detail", e.detail.getD .null)] }

/-- The world of variant RA: the two upstream responses. -/
structure World where
  agoda : FetchResp
  wp : FetchResp

/-- Source lines 6-68: the `POST` handler of variant RA. -/
def post (env : Env) (req : Req) (w : World) : HResult :=
  if falsyS req.apiKeyHeader || req.apiKeyHeader != env.API_KEY then
    { resp := { status := 401, body := .obj [("error", .str "Unauthorized")] }, calls := [] }
  else
    match req.body with
    | .error m =>
        { resp := catchResp ⟨m, none⟩, calls := [] }
    | .ok b =>
      let keyword := bget b "keyword"
      let hotelId := (bget b "hotelId").getD .null
      let version := (bget b "version").getD (.str "V1")
      let publishType := (bget b "publishType").getD (.str "draft")
      let category := (bget b "category").getD (.num 1)
      if !jsTruthy hotelId then
        { resp := { status := 400, body := .obj [("error", .str "hotelId is required")] },
          calls := [] }
      else
        match agodaGetHotelById env w.agoda hotelId with
        | (.error e, cs) => { resp := catchResp e, calls := cs }
        | (.ok rawHotel, cs) =>
          let hotel := normalizeHotel rawHotel
          match generateAffiliateUrl env hotelId with
          | .error e => { resp := catchResp e, calls := cs }
          | .ok affiliateUrl =>
            let title := jsToString hotel.name ++ " | " ++
              jsToString (jsCoal keyword (.str "호텔")) ++ " 예약 가이드"
            let contentHtml :=
              generatePostHTML (jsCoal keyword (.str "호텔")) hotel affiliateUrl version
            match publishToWordPress env w.wp title contentHtml publishType
                (jsNumberO category) with
            | (.error e, cs2, sent) =>
                { resp := catchResp e, calls := cs ++ cs2, wpSent := sent }
            | (.ok wpJson, cs2, sent) =>
                { resp := { status := 200, body := .obj [("success", .bool true), ("wp", wpJson)] },
                  calls := cs ++ cs2, wpSent := sent }

end RA

/-! ## Shared enum types of variants RB and P1 -/

/-- The `PublishType` union type of route.ts (second handler) and part_001. -/
inductive PublishType where
  | draft
  | publish
  | future
deriving DecidableEq

/-- String value of a `PublishType` member. -/
def ptStr : PublishType → String
  | .draft => "draft"
  | .publish => "publish"
  | .future => "future"

/-- Truthiness of an optional string (`undefined` and `""` are falsy). -/
def optTruthy (o : Option String) : Bool :=
  o.getD "" ≠ ""

/-- Disjunction `o || d` over an optional string. -/
def jsOrS (o : Option String) (d : String) : String :=
  match o with
  | some s => if s ≠ "" then s else d
  | none => d

/-- The `typeof v === "string" ? v.trim() : ""` helper (`safeStr`) shared by the
    route.ts second handler; `undefined` and non-strings give `""`. -/
def safeStr (v : Option Json) : String :=
  match v with
  | some (.str s) => jsTrim s
  | _ => ""

/-- ASCII digit test. -/
def isDigit (c : Char) : Bool :=
  '0' ≤ c && c ≤ '9'

/-- Match `hid=` (case-insensitively) followed by 3..12 digits, as the capture
    of the regex `[\?&]hid=(\d{3,12})` does right after a `?`/`&`. -/
def tryHid (l : List Char) : Option String :=
  match l with
  | h :: i :: d :: '=' :: rest =>
      if (h = 'h' || h = 'H') && (i = 'i' || i = 'I') && (d = 'd' || d = 'D') then
        let ds := (rest.takeWhile isDigit).take 12
        if ds.length ≥ 3 then some (String.mk ds) else none
      else none
  | _ => none

/-- Leftmost match of `[\?&]hid=(\d{3,12})/i`, returning the captured digits. -/
def hidScan : List Char → Option String
  | [] => none
  | c :: rest =>
      if c = '?' || c = '&' then
        match tryHid rest with
        | some ds => some ds
        | none => hidScan rest
      else hidScan rest

/-- Scan every suffix with a matcher, returning the leftmost hit (the way a
    regex engine advances one position at a time). -/
def scanOpt (f : List Char → Option String) : List Char → Option String
  | [] => f []
  | c :: r =>
      match f (c :: r) with
      | some s => some s
      | none => scanOpt f r

/-- Case-insensitive match of a (lower-case) literal pattern, returning the rest. -/
def stripCI : List Char → List Char → Option (List Char)
  | l, [] => some l
  | [], _ :: _ => none
  | c :: l, d :: p => if c.toLower = d then stripCI l p else none

/-- Match of `"hotelId"\s*:\s*(\d{3,12})/i` at the head of the input. -/
def tryHotelIdJson (l : List Char) : Option String :=
  match stripCI l "\"hotelid\"".data with
  | none => none
  | some r1 =>
      let r2 := (r1.dropWhile jsIsWs)
      match r2 with
      | ':' :: r3 =>
          let r4 := r3.dropWhile jsIsWs
          let ds := (r4.takeWhile isDigit).take 12
          if ds.length ≥ 3 then some (String.mk ds) else none
      | _ => none

/-- Match of `hotelId%22%3A(\d{3,12})/i` at the head of the input. -/
def tryHotelIdEnc (l : List Char) : Option String :=
  match stripCI l "hotelid%22%3a".data with
  | none => none
  | some r =>
      let ds := (r.takeWhile isDigit).take 12
      if ds.length ≥ 3 then some (String.mk ds) else none

/-- Result of `new URL(u)` followed by `searchParams.get("hid")`: the outer
    `none` models the constructor throwing, the inner option the absent param.
    WHATWG URL parsing is a platform builtin, abstracted as this oracle. -/
def HidOracle := String → Option (Option String)

/-- Result of the `new URL(u)`/`searchParams.set("s", size)`/`toString()` block
    of part_001's `ensureSize` (`none` models the constructor throwing). -/
def SizeUrlOracle := String → String → Option String

/-- Unicode NFKD normalization (`String.prototype.normalize`), a platform
    builtin abstracted as an oracle. -/
def NfkdOracle := String → String

/-- Slice of the first `n` UTF-16 code units (`s.slice(0, n)`); a trailing
    half surrogate is dropped. -/
def takeUnits : Nat → List Char → List Char
  | _, [] => []
  | 0, _ :: _ => []
  | n + 1, c :: r =>
      if utf16Count c ≤ n + 1 then c :: takeUnits (n + 1 - utf16Count c) r else []

/-- JavaScript `s.slice(0, n)`. -/
def jsSliceUnits (s : String) (n : Nat) : String :=
  String.mk (takeUnits n s.data)

/-- Split on runs of whitespace keeping boundary empties, exactly as
    `split(/\s+/)` behaves (fuel-bounded scan; fuel `length + 1` suffices). -/
def splitRunsF : Nat → List Char → List String
  | 0, _ => []
  | fuel + 1, l =>
      let tok := l.takeWhile (fun c => ¬ jsIsWs c)
      let rest := l.drop tok.length
      match rest with
      | [] => [String.mk tok]
      | _ => String.mk tok :: splitRunsF fuel (rest.dropWhile jsIsWs)

/-- JavaScript `s.split(/\s+/)`. -/
def jsSplitWs (s : String) : List String :=
  splitRunsF (s.data.length + 1) s.data

/-- Insertion into a JS `Set` modelled as an order-preserving list. -/
def setAdd (l : List String) (x : String) : List String :=
  if l.contains x then l else l ++ [x]

/-- Collapse of runs: each maximal run of characters satisfying `p` becomes one
    `rep` (the shape of `replace(/X+/g, rep)`). -/
def collapseAux (p : Char → Bool) (rep : Char) : Bool → List Char → List Char
  | _, [] => []
  | inRun, c :: r =>
      if p c then
        if inRun then collapseAux p rep true r else rep :: collapseAux p rep true r
      else c :: collapseAux p rep false r

/-- Replacement `replace(/X+/g, rep)` for a character class `X`. -/
def collapseRuns (p : Char → Bool) (rep : Char) (l : List Char) : List Char :=
  collapseAux p rep false l

/-- Removal of one leading and one trailing `c` (`replace(/^c|c$/g, "")`). -/
def stripEdge (c : Char) (l : List Char) : List Char :=
  let a := match l with
    | x :: r => if x = c then r else l
    | [] => l
  match a.getLast? with
  | some x => if x = c then a.dropLast else a
  | none => a

/-- Draw `k` of the random stream indexes an `n`-element array at `g k % n`
    (`arr[Math.floor(Math.random() * arr.length)]`). -/
def pickR (g : RngStream) (k : Nat) (arr : List α) (dflt : α) : α :=
  arr.getD (g k % arr.length) dflt

/-! ## Variant RB: the second handler of src/app/api/wp/post/route.ts (lines 358-1077) -/

namespace RB

/-- The `Version` union type of variant RB. -/
inductive Version where
  | V1
  | V2
  | V3
  | V4
deriving DecidableEq

/-- Source lines 374-376: `jsonError` (an undefined `detail` is omitted from the
    serialized body, as `NextResponse.json` drops undefined fields). -/
def jsonError (status : Nat) (message : String) (detail : Option Json := none) : Resp :=
  { status := status,
    body := .obj ([("error", .str message)] ++
      (match detail with
       | some d => [("detail", d)]
       | none => [])) }

/-- Source lines 378-380: `base64`. -/
def base64 (s : String) : String :=
  btoaUtf8 s

/-- Source lines 386-389: `normalizePublishType`. -/
def normalizePublishType (v : Option Json) : PublishType :=
  match v with
  | some (.str "publish") => .publish
  | some (.str "future") => .future
  | some (.str "draft") => .draft
  | _ => .draft

/-- Source lines 391-394: `normalizeVersion`. -/
def normalizeVersion (v : Option Json) : Version :=
  match v with
  | some (.str "V1") => .V1
  | some (.str "V2") => .V2
  | some (.str "V3") => .V3
  | some (.str "V4") => .V4
  | _ => .V1

/-- String value of a `Version` member. -/
def verStr : Version → String
  | .V1 => "V1"
  | .V2 => "V2"
  | .V3 => "V3"
  | .V4 => "V4"

/-- Source lines 404-409 (inside `getDefaultDates`): `toYMD` via the local-time
    accessors. -/
def toYMD (d : JsDate) : String :=
  toString d.year ++ "-" ++ pad2 d.month ++ "-" ++ pad2 d.day

/-- Source lines 396-412: `getDefaultDates`, today + 30 / + 31 days. -/
def getDefaultDates (now : JsDate) : String × String :=
  (toYMD (jsAddDays now 30), toYMD (jsAddDays now 31))

/-- The parsed `AGODA_AUTH` credential. -/
structure AgodaAuth where
  siteId : String
  apiKey : String
  authHeader : String

/-- Source lines 417-429: `getAgodaAuthFromEnv`. -/
def getAgodaAuthFromEnv (env : Env) : Except JsError AgodaAuth :=
  if falsyS env.AGODA_AUTH then
    .error ⟨"Missing env: AGODA_AUTH (format: siteId:apiKey)", none⟩
  else
    let parts := jsSplitOnChar (env.AGODA_AUTH.getD "") ':' 
    if parts.length < 2 then
      .error ⟨"Invalid AGODA_AUTH format. Must be siteId:apiKey", none⟩
    else
      let siteId := jsTrim (parts.getD 0 "")
      let apiKey := jsTrim (String.intercalate ":" (parts.drop 1))
      if siteId = "" || apiKey = "" then
        .error ⟨"Invalid AGODA_AUTH value (empty siteId or apiKey)", none⟩
      else .ok ⟨siteId, apiKey, siteId ++ ":" ++ apiKey⟩

/-- Source lines 434-445: `extractHotelIdFromUrl` (URL parsing via the oracle,
    then the `[\?&]hid=(\d{3,12})/i` fallback). -/
def extractHotelIdFromUrl (pu : HidOracle) (url : String) : Option String :=
  if url = "" then none
  else
    match pu url with
    | some (some hid) =>
        if hid ≠ "" && hid.data.all isDigit then some hid else hidScan url.data
    | _ => hidScan url.data

/-- The three regex alternatives of source lines 477-480 over a fetched page. -/
def scrapeHid (html : String) : Option String :=
  match hidScan html.data with
  | some h => some h
  | none =>
      match scanOpt tryHotelIdJson html.data with
      | some h => some h
      | none => scanOpt tryHotelIdEnc html.data

/-- The candidate-URL loop of source lines 471-486: fetch each candidate until
    one yields a hid, recording one scrape call per attempt. -/
def resolveLoop (scrape : String → FetchResp) : List String → Option String × List Call
  | [] => (none, [])
  | u :: rest =>
      let r := scrape u
      if !r.ok then
        let (res, cs) := resolveLoop scrape rest
        (res, Call.agodaScrape :: cs)
      else
        match scrapeHid r.text with
        | some hid => (some hid, [Call.agodaScrape])
        | none =>
            let (res, cs) := resolveLoop scrape rest
            (res, Call.agodaScrape :: cs)

/-- Source lines 451-488: `resolveHotelIdFromKeyword`. -/
def resolveHotelIdFromKeyword (scrape : String → FetchResp) (keyword cid : String)
    (hl : String) (now : JsDate) : Option String × List Call :=
  let d := getDefaultDates now
  let tail := "&checkIn=" ++ d.1 ++ "&checkOut=" ++ d.2 ++ "&rooms=1&adults=2"
  let base := "https://www.agoda.com/" ++ hl ++ "/search?cid=" ++ encodeURIComponent cid
  resolveLoop scrape
    [base ++ "&textToSearch=" ++ encodeURIComponent keyword ++ tail,
     base ++ "&city=" ++ encodeURIComponent keyword ++ tail,
     base ++ "&asq=" ++ encodeURIComponent keyword ++ tail]

/-- Source lines 493-538: `agodaGetHotelById` of variant RB. -/
def agodaGetHotelById (env : Env) (resp : FetchResp) (hotelId : String)
    (checkInDate checkOutDate : Option String) (now : JsDate) :
    Except JsError Json × List Call :=
  match getAgodaAuthFromEnv env with
  | .error e => (.error e, [])
  | .ok _auth =>
      let d := getDefaultDates now
      let inDate := jsOrS checkInDate d.1
      let outDate := jsOrS checkOutDate d.2
      let _payload : Json := .obj
        [("criteria", .obj
          [("language", .str "ko-kr"), ("currency", .str "KRW"),
           ("occupancy", .obj [("numberOfAdult", .num 2), ("numberOfChildren", .num 0)]),
           ("checkInDate", .str inDate), ("checkOutDate", .str outDate),
           ("hotelId", .arr [jsNumJson (jsNumberO (.str hotelId))])])]
      let data : Json := resp.json.getD .null
      if !resp.ok then
        (.error ⟨"Agoda API failed: " ++ toString resp.status ++ " " ++ resp.text, none⟩,
         [.agodaLookup])
      else (.ok data, [.agodaLookup])

/-- Source lines 543-567: `buildAffiliateLink` (the WHATWG `URLSearchParams`
    serialization of the six parameters, in insertion order). -/
def buildAffiliateLink (cid hotelId : String) (checkInDate checkOutDate : Option String)
    (adults rooms : Int) (now : JsDate) : String :=
  let d := getDefaultDates now
  let checkIn := jsOrS checkInDate d.1
  let checkOut := jsOrS checkOutDate d.2
  "https://www.agoda.com/partners/partnersearch.aspx?hid=" ++ formEncode hotelId ++
  "&cid=" ++ formEncode cid ++ "&checkIn=" ++ formEncode checkIn ++
  "&checkOut=" ++ formEncode checkOut ++ "&rooms=" ++ formEncode (toString rooms) ++
  "&adults=" ++ formEncode (toString adults)

/-- Source lines 573-576: `clampStr`. -/
def clampStr (s : String) (max : Nat := 155) : String :=
  let t := jsTrim s
  if jsLen t ≤ max then t else jsTrim (jsSliceUnits t (max - 1))

/-- Source lines 581-591: `slugify` (NFKD through the oracle; each regex stage
    spelled out). -/
def slugify (nfkd : NfkdOracle) (input : String) : String :=
  let s1 := nfkd (jsLower input)
  let s2 := s1.data.filter (fun c => ¬ (768 ≤ c.toNat ∧ c.toNat ≤ 879))
  let s3 := s2.map (fun c =>
    if ('a' ≤ c && c ≤ 'z') || ('0' ≤ c && c ≤ '9') || jsIsWs c || c = '-' then c else ' ')
  let s4 := collapseRuns jsIsWs '-' s3
  let s5 := collapseRuns (fun c => c = '-') '-' s4
  String.mk (stripEdge '-' s5)

/-- Source lines 593-610: `buildTitle`.  Consumes one draw for the random tail
    and a second one in the `pick(patterns)` fallback; returns the next draw
    index. -/
def buildTitle (keyword hotelName : String) (version : Version) (g : RngStream)
    (k : Nat) : String × Nat :=
  let regionHints := ["여행", "숙소", "예약", "가이드", "추천", "정리"]
  let tail := pickR g k regionHints ""
  let patterns :=
    [hotelName ++ " | " ++ keyword ++ " 예약 전 꼭 볼 정보",
     keyword ++ " 숙소로 " ++ hotelName ++ " 어때? 핵심만 " ++ tail,
     hotelName ++ " 가격·후기·체크포인트 – " ++ keyword ++ " 기준",
     keyword ++ " 추천: " ++ hotelName ++ " 장단점 " ++ tail,
     hotelName ++ " 한눈에 보기 | " ++ keyword ++ " 이용 팁"]
  match version with
  | .V1 => (patterns.getD 0 "", k + 1)
  | .V2 => (patterns.getD 1 "", k + 1)
  | .V3 => (patterns.getD 2 "", k + 1)
  | .V4 => (pickR g (k + 1) patterns "", k + 2)

/-- Characters kept by `replace(/[^가-힣a-zA-Z0-9]/g, "")`. -/
def hashtagChar (c : Char) : Bool :=
  (44032 ≤ c.toNat && c.toNat ≤ 55203) || ('a' ≤ c && c ≤ 'z') ||
  ('A' ≤ c && c ≤ 'Z') || ('0' ≤ c && c ≤ '9')

/-- Characters kept by `replace(/[^a-z0-9가-힣\s]/g, "")` (after lower-casing). -/
def hotelTagChar (c : Char) : Bool :=
  ('a' ≤ c && c ≤ 'z') || ('0' ≤ c && c ≤ '9') ||
  (44032 ≤ c.toNat && c.toNat ≤ 55203) || jsIsWs c

/-- The `while (base.size < 5)` filler loop of source line 631, fuel-bounded:
    the JS loop is unbounded (it almost surely terminates since `extras` has six
    distinct entries); 32 iterations cover every execution the theorems touch. -/
def hashLoop (g : RngStream) (extras : List String) : Nat → Nat → List String →
    List String × Nat
  | 0, k, base => (base, k)
  | fuel + 1, k, base =>
      if base.length < 5 then
        hashLoop g extras fuel (k + 1) (setAdd base (pickR g k extras ""))
      else (base, k)

/-- Source lines 612-633: `buildHashtags`; returns the joined tags and the next
    draw index. -/
def buildHashtags (keyword hotelName : String) (cityName countryName : Option String)
    (g : RngStream) (k : Nat) : String × Nat :=
  let kw := ((jsSplitWs keyword).filter (fun t => t ≠ "")).take 2
  let base0 := kw.foldl (fun acc w => setAdd acc ("#" ++ keepChars hashtagChar w)) []
  let base1 :=
    match cityName with
    | some c => if c ≠ "" then setAdd base0 ("#" ++ keepChars (fun ch => ¬ jsIsWs ch) c ++ "호텔") else base0
    | none => base0
  let base2 :=
    match countryName with
    | some c => if c ≠ "" then setAdd base1 ("#" ++ keepChars (fun ch => ¬ jsIsWs ch) c ++ "여행") else base1
    | none => base1
  let hotelTag := String.join (((jsSplitWs (keepChars hotelTagChar (jsLower hotelName))).take 2))
  let base3 := if hotelTag ≠ "" then setAdd base2 ("#" ++ hotelTag) else base2
  let extras := ["#호텔추천", "#숙소추천", "#가족여행", "#커플여행", "#가성비숙소", "#리조트추천"]
  let (base4, k1) := hashLoop g extras 32 k base3
  (String.intercalate " " (base4.take 6), k1)

/-- A question/answer record of `faqQuestions`. -/
structure QA where
  q : String
  a : String

/-- Arguments of variant RB's `buildHtml` (source lines 639-651).  `hotelName`
    is a string at every use site (a non-string upstream name would already
    have thrown inside `buildHashtags`); `imageURL` keeps its raw JSON value. -/
structure BuildArgs where
  hotelName : String
  imageURL : Option Json := none
  reviewScore : Option Int := none
  affiliateUrl : String
  keyword : String
  cityName : Option String := none
  countryName : Option String := none
  checkInDate : Option String := none
  checkOutDate : Option String := none

/-- The four expansion blocks of `ensureMinLength` (source lines 807-821). -/
def extraBlocksOf (hotelName keyword : String) (cityName countryName : Option String) :
    List String :=
  ["<h3>이 숙소가 잘 맞는 여행 스타일</h3>\n<p>" ++ hotelName ++
     "은(는) <b>휴양</b> 중심인지, <b>관광</b> 중심인지에 따라 체감이 달라요. " ++
     (if optTruthy cityName then cityName.getD "" ++ " 일정에서 이동 시간이 길어지지 않는지"
      else "이동 시간이 무리 없는지") ++
     " 먼저 확인해보면 실패 확률이 확 줄어요.</p>",
   "<h3>가격 비교 팁</h3>\n<p>같은 " ++ keyword ++
     "라도 날짜를 1~2일만 바꿔도 요금 차이가 생길 때가 많아요. 주말/연휴/성수기에는 특히 변동폭이 커서, 가능한 경우 <b>여러 날짜로 비교</b>해보는 게 좋아요.</p>",
   "<h3>체크인 전 마지막 확인</h3>\n<p>예약 직전에는 “취소 규정”, “포함 사항(조식/세금)”, “침대 구성” 3가지만 다시 확인해도 실수 확률이 크게 줄어요. 필요한 경우 호텔 측 메시지로 요청사항을 남겨두는 것도 도움이 돼요.</p>",
   "<h3>" ++ (if optTruthy countryName then countryName.getD "" ++ " 여행" else "여행") ++
     "에서 자주 놓치는 포인트</h3>\n<p>리조트/호텔은 “좋아 보이는 사진”보다 <b>동선</b>과 <b>실제 이용시간</b>이 만족도를 좌우해요. 공항/역 이동, 주요 스팟 접근성, 밤 이동 안전 등을 함께 고려해보세요.</p>"]

/-- The append loop of `ensureMinLength` (source lines 823-829): while the
    UTF-16 length is short of `minChars` and fewer than 12 blocks were added. -/
def ensureLoop (g : RngStream) (minChars : Nat) (extra : List String) :
    Nat → Nat → String → String
  | 0, _, out => out
  | fuel + 1, k, out =>
      if jsLen out < minChars then
        ensureLoop g minChars extra fuel (k + 1) (out ++ "\n\n" ++ pickR g k extra "")
      else out

/-- Source lines 803-830: `ensureMinLength`. -/
def ensureMinLength (g : RngStream) (k : Nat) (html : String) (minChars : Nat)
    (hotelName keyword : String) (cityName countryName : Option String) : String :=
  if jsLen html ≥ minChars then html
  else ensureLoop g minChars (extraBlocksOf hotelName keyword cityName countryName) 12 k html

/-- One call-to-action button (`btn`, source lines 753-760, trimmed template). -/
def btn (affiliateUrl label : String) : String :=
  "<div style=\"margin:18px 0;text-align:center;\">\n      <a href=\"" ++ affiliateUrl ++
  "\" target=\"_blank\" rel=\"nofollow noopener\"\n         style=\"background:#ff5a5f;color:#fff;padding:14px 22px;border-radius:12px;text-decoration:none;font-weight:700;display:inline-block;\">\n        " ++
  label ++ "\n      </a>\n    </div>"

/-- Source lines 639-801: `buildHtml` of variant RB.  Every `pick` call draws
    from the ambient random stream `g`; `k` is the index of the next draw.  The
    draw order follows the JavaScript evaluation order: the two FAQ picks, the
    image alt text (only when an image is present), the hashtag filler loop, the
    three checklist picks, the tag-line pick, the intro pick, the one-liner
    pick, then the `ensureMinLength` padding picks. -/
def buildHtml (a : BuildArgs) (g : RngStream) (k : Nat) : String :=
  let scoreText :=
    match a.reviewScore with
    | some n => toString n ++ " / 10"
    | none => "예약 페이지에서 확인"
  let scheduleText :=
    if optTruthy a.checkInDate && optTruthy a.checkOutDate then
      a.checkInDate.getD "" ++ " ~ " ++ a.checkOutDate.getD ""
    else "원하는 날짜로 확인"
  let introVariants :=
    [a.hotelName ++ "을(를) “" ++ a.keyword ++ "”로 찾는 분들이 가장 많이 궁금해하는 포인트만 모아서 정리했어요.",
     "여행 동선을 기준으로 보면 " ++ a.hotelName ++ "이(가) 잘 맞는지 빠르게 판단할 수 있게 구성했어요.",
     "가격/후기/체크포인트를 중심으로 " ++ a.hotelName ++ "을(를) 한 번에 훑어볼 수 있게 정리했어요.",
     "시간 아끼려고 핵심만 담았어요. " ++ a.hotelName ++ " 예약 전에 아래 체크리스트만 확인해도 충분해요."]
  let oneLineVariants :=
    ["한 줄로 보면, 일정과 예산만 맞으면 충분히 만족할 가능성이 높아요.",
     "동선이 편하면 체감 만족도가 크게 올라가요. 위치/교통부터 먼저 체크해보세요.",
     "부대시설(수영장/조식/라운지 등)을 중시한다면 후보로 올려둘 만해요.",
     "성수기에는 변동이 크니, 날짜를 1~2일 바꿔 비교하면 유리할 때가 많아요."]
  let checklistPool :=
    ["무료 취소 마감일/환불 규정을 먼저 확인하세요.",
     "방 타입(전망/침대 구성)과 인원 정책을 확인하세요.",
     "조식 포함/불포함 가격 차이를 비교해보세요.",
     "공항/역 이동 시간과 교통편을 먼저 체크해두면 편해요.",
     "성수기에는 가격 변동이 크니 2~3일 간격으로 비교해보세요.",
     "체크인/체크아웃 시간과 짐 보관 가능 여부를 확인해두면 좋아요.",
     "리조트형이면 수영장/부대시설 운영시간(시즌)을 확인하세요."]
  let tagsVariants :=
    ["#가성비 우선 #리조트/수영장 중심 #가족 여행",
     "#위치 우선 #도보 이동 #첫 방문",
     "#휴양 중심 #커플 여행 #조용한 숙소",
     "#장기 숙박 #편의시설 #실속형"]
  let faqQuestions : List QA :=
    [⟨a.hotelName ++ " 조식은 어떤가요?",
      "조식 구성은 시즌/프로모션에 따라 달라질 수 있어요. 포함 여부와 최근 리뷰를 함께 확인해보세요."⟩,
     ⟨a.hotelName ++ " 수영장/부대시설은 어떤가요?",
      "부대시설은 숙소 선택의 핵심 포인트예요. 운영시간/휴무는 시즌에 따라 달라질 수 있어 예약 페이지에서 확인해 주세요."⟩,
     ⟨a.hotelName ++ " 체크인/체크아웃 팁이 있나요?",
      "체크인/체크아웃은 정책에 따라 달라질 수 있어요. 늦은 체크인/레이트 체크아웃 가능 여부를 미리 확인해두면 좋아요."⟩,
     ⟨a.hotelName ++ " 주변에 뭐가 있나요?",
      "주변 환경은 여행 목적(휴양/관광)에 따라 장단점이 달라요. 지도/이동 시간을 기준으로 판단해보세요."⟩]
  let f1 := pickR g k faqQuestions ⟨"", ""⟩
  let f2 := pickR g (k + 1) faqQuestions ⟨"", ""⟩
  let selectedFaq := (dedupBy (fun x y => x.q == y.q) [f1, f2]).take 2
  let faqJsonLd : Json := .obj
    [("@context", .str "https://schema.org"), ("@type", .str "FAQPage"),
     ("mainEntity", .arr (selectedFaq.map (fun x => .obj
       [("@type", .str "Question"), ("name", .str x.q),
        ("acceptedAnswer", .obj [("@type", .str "Answer"), ("text", .str x.a)])])))]
  let imgAltVariants :=
    [a.hotelName ++ " 객실 전경",
     a.hotelName ++ " 호텔 전경",
     (match a.cityName with
      | some c => if c ≠ "" then c ++ " " else ""
      | none => "") ++ a.hotelName ++ " 대표 이미지",
     a.hotelName ++ " 숙소 사진"]
  let hasImg := jsTruthyO a.imageURL
  let imgAlt := if hasImg then pickR g (k + 2) imgAltVariants "" else ""
  let k3 := if hasImg then k + 3 else k + 2
  let imgBlock :=
    if hasImg then
      "<div style=\"text-align:center;margin:18px 0;\">\n         <img src=\"" ++
      jsToString (a.imageURL.getD .null) ++ "\" alt=\"" ++ imgAlt ++
      "\"\n              style=\"max-width:100%;border-radius:14px;\" />\n       </div>"
    else ""
  let regionLine :=
    if optTruthy a.cityName || optTruthy a.countryName then
      "<div style=\"margin:6px 0 0;color:#6b7280;font-size:13px;\">📍 지역: " ++
      String.intercalate ", "
        (((match a.cityName with
           | some c => [c]
           | none => []) ++
          (match a.countryName with
           | some c => [c]
           | none => [])).filter (fun s => s ≠ "")) ++ "</div>"
    else ""
  let hk := buildHashtags a.keyword a.hotelName a.cityName a.countryName g k3
  let hashtags := hk.1
  let k4 := hk.2
  let cta1 := "👉 아고다 최저가 확인하기"
  let cta2 := "👉 현재 날짜로 가격/객실 확인"
  let cta3 := "👉 예약 페이지로 이동"
  let listItems := [pickR g k4 checklistPool "", pickR g (k4 + 1) checklistPool "",
                    pickR g (k4 + 2) checklistPool ""]
  let uniqueItems := dedupBy (fun x y => x == y) listItems
  let tagsPick := pickR g (k4 + 3) tagsVariants ""
  let basicBox :=
    "<div style=\"border:1px solid #e5e7eb;border-radius:14px;padding:14px 16px;background:#f8fafc;margin:18px 0;\">\n      <div style=\"font-weight:800;font-size:16px;margin-bottom:10px;\">🏨 호텔 기본 정보</div>\n      " ++
    regionLine ++
    "\n      <div style=\"display:grid;grid-template-columns:1fr 1fr;gap:10px;font-size:14px;line-height:1.5;margin-top:10px;\">\n        <div><b>호텔명</b><br/>" ++
    a.hotelName ++ "</div>\n        <div><b>키워드</b><br/>" ++ a.keyword ++
    "</div>\n        <div><b>위치</b><br/>예약 페이지에서 확인</div>\n        <div><b>평점</b><br/>" ++
    scoreText ++ "</div>\n        <div><b>추천 일정</b><br/>" ++ scheduleText ++
    "</div>\n        <div><b>추천 태그</b><br/>" ++ tagsPick ++
    "</div>\n      </div>\n      <div style=\"margin-top:10px;color:#374151;font-size:13px;\">\n        " ++
    (match a.reviewScore with
     | some n =>
         if 10 * n ≥ 85 then "평점이 높은 편(8.5점+)이라 안정적인 선택지예요."
         else "조건(날짜/요금/방 타입)에 따라 체감 만족도가 크게 달라질 수 있어요."
     | none => "조건(날짜/요금/방 타입)에 따라 체감 만족도가 크게 달라질 수 있어요.") ++
    "\n      </div>\n    </div>"
  let introPick := pickR g (k4 + 4) introVariants ""
  let onePick := pickR g (k4 + 5) oneLineVariants ""
  let html0 := jsTrim ("\n" ++ imgBlock ++ "\n\n<h2>" ++ a.keyword ++ " 추천 호텔: " ++
    a.hotelName ++ "</h2>\n<p>" ++ introPick ++ "</p>\n\n" ++ btn a.affiliateUrl cta1 ++
    "\n\n" ++ basicBox ++ "\n\n<h3>핵심 요약</h3>\n<p>" ++ onePick ++
    "</p>\n\n<h3>예약 전 체크리스트</h3>\n<ul style=\"margin:10px 0 0 18px;\">\n  " ++
    String.join (uniqueItems.map (fun t => "<li style=\"margin:6px 0;\">" ++ t ++ "</li>")) ++
    "\n</ul>\n\n" ++ btn a.affiliateUrl cta2 ++
    "\n\n<h3>자주 묻는 질문(FAQ)</h3>\n<ul style=\"margin:10px 0 0 18px;\">\n  " ++
    String.join (selectedFaq.map (fun x => "<li style=\"margin:6px 0;\">" ++ x.q ++ "</li>")) ++
    "\n</ul>\n\n" ++ btn a.affiliateUrl cta3 ++ "\n\n<h3>해시태그</h3>\n<p>" ++ hashtags ++
    "</p>\n\n<script type=\"application/ld+json\">\n" ++ jsonStringifyP 0 faqJsonLd ++
    "\n</script>")
  ensureMinLength g (k4 + 6) html0 2200 a.hotelName a.keyword a.cityName a.countryName

end RB

namespace RB

/-- Parameters of variant RB's `wpCreatePost` (source lines 835-847). -/
structure WpParams where
  title : String
  content : String
  status : PublishType
  category : Option Int
  publishAt : Option String := none
  slug : Option String := none
  seoTitle : Option String := none
  seoDescription : Option String := none
  focusKeyword : Option String := none
  canonicalUrl : Option String := none

/-- The JSON body `wpCreatePost` posts (source lines 858-889): base fields, then
    the conditional `slug`/`excerpt`, the Rank Math `meta` object, and for
    `future` the `date` defaulted to tomorrow 09:00 local time. -/
def wpBodyOf (p : WpParams) (now : JsDate) : Json :=
  .obj
    ([("title", .str p.title), ("content", .str p.content),
      ("status", .str (ptStr p.status)),
      ("categories", .arr [jsNumJson p.category])] ++
     (if optTruthy p.slug then [("slug", .str (p.slug.getD ""))] else []) ++
     (if optTruthy p.seoDescription then [("excerpt", .str (p.seoDescription.getD ""))] else []) ++
     [("meta", .obj
       ((if optTruthy p.seoTitle then [("rank_math_title", Json.str (p.seoTitle.getD ""))] else []) ++
        (if optTruthy p.seoDescription then [("rank_math_description", Json.str (p.seoDescription.getD ""))] else []) ++
        (if optTruthy p.focusKeyword then [("rank_math_focus_keyword", Json.str (p.focusKeyword.getD ""))] else []) ++
        (if optTruthy p.canonicalUrl then [("rank_math_canonical_url", Json.str (p.canonicalUrl.getD ""))] else [])))] ++
     (if p.status = .future then
        [("date", .str (jsOrS p.publishAt (isoRender (jsSetHours (jsAddDays now 1) 9 0 0 0))))]
      else []))

/-- Source lines 835-913: `wpCreatePost`.  Returns the parsed response or the
    thrown error, the call trace, and the JSON body sent. -/
def wpCreatePost (env : Env) (resp : FetchResp) (p : WpParams) (now : JsDate) :
    Except JsError Json × List Call × Option Json :=
  if falsyS env.WP_URL then (.error ⟨"Missing env: WP_URL", none⟩, [], none)
  else if falsyS env.WP_USERNAME then (.error ⟨"Missing env: WP_USERNAME", none⟩, [], none)
  else if falsyS env.WP_APP_PASSWORD then (.error ⟨"Missing env: WP_APP_PASSWORD", none⟩, [], none)
  else
    let body := wpBodyOf p now
    let data : Json := resp.json.getD .null
    if !resp.ok then
      (.error ⟨"WP API failed: " ++ toString resp.status ++ " " ++ resp.text, none⟩,
       [.wpPublish false], some body)
    else (.ok data, [.wpPublish true], some body)

/-- The world of variant RB: the URL/NFKD platform oracles, the per-candidate
    scrape responses, the two upstream responses, the clock and the random
    stream. -/
structure World where
  parseHid : HidOracle
  nfkd : NfkdOracle
  scrape : String → FetchResp
  agoda : FetchResp
  wp : FetchResp
  now : JsDate
  rng : RngStream

/-- The tail of `POST` from the Agoda lookup on (source lines 981-1072),
    factored out of `post` below; `scrapeCalls` carries the calls already
    issued while resolving the hotel id. -/
def postAfterResolve (env : Env) (w : World) (b : Body) (keyword0 : String)
    (hid : String) (version : Version) (publishType : PublishType)
    (category : Option Int) (checkInDate checkOutDate : Option String)
    (slug seoTitle seoDescription focusKeyword canonicalUrl : Option String)
    (cid : String) (scrapeCalls : List Call) : HResult :=
  match agodaGetHotelById env w.agoda hid checkInDate checkOutDate w.now with
  | (.error e, cs) =>
      { resp := jsonError 502 e.message, calls := scrapeCalls ++ cs }
  | (.ok agodaData, cs) =>
    let firstO :=
      match jget agodaData "results" with
      | some r => jidx r 0
      | none => none
    if ¬ jsTruthyO firstO then
      { resp := jsonError 502 "Agoda fetch failed: no results" (some agodaData),
        calls := scrapeCalls ++ cs }
    else
      let first := firstO.getD .null
      let hotelName := jsToString (jsOrU (jget first "hotelName")
        (jsOrU (jget first "propertyName") (.str ("Hotel " ++ hid))))
      let imageURL := jget first "imageURL"
      let reviewScore :=
        match jget first "reviewScore" with
        | some (.num n) => some n
        | _ => none
      let cityName :=
        let s := jsOrS (some (safeStr (jget first "cityName"))) (safeStr (jget first "city"))
        if s = "" then none else some s
      let countryName :=
        let s := jsOrS (some (safeStr (jget first "countryName"))) (safeStr (jget first "country"))
        if s = "" then none else some s
      let keyword := if keyword0 = "" then hotelName ++ " 예약" else keyword0
      let agodaHotelId := jsToString (jsCoal (jget first "hotelId") (.str hid))
      let affiliateUrl :=
        buildAffiliateLink cid agodaHotelId checkInDate checkOutDate 2 1 w.now
      let tk := buildTitle keyword hotelName version w.rng 0
      let title := tk.1
      let content := buildHtml
        { hotelName := hotelName, imageURL := imageURL, reviewScore := reviewScore,
          affiliateUrl := affiliateUrl, keyword := keyword, cityName := cityName,
          countryName := countryName, checkInDate := checkInDate,
          checkOutDate := checkOutDate } w.rng tk.2
      let autoSlug :=
        match slug with
        | some s => s
        | none =>
            let base := slugify w.nfkd ((cityName.getD "") ++ " " ++ hotelName ++ " " ++ keyword)
            if jsLen base ≥ 10 then jsSliceUnits base 70 else "hotel-" ++ agodaHotelId
      let autoSeoTitle := seoTitle.getD title
      let autoSeoDesc := seoDescription.getD (clampStr
        (keyword ++ "로 " ++ hotelName ++
         "을(를) 찾는 분들을 위한 핵심 정보(평점·일정·체크리스트)를 정리했습니다. 날짜 포함 링크로 가격/객실을 바로 확인해 보세요.") 155)
      let autoFocus := focusKeyword.getD keyword
      let publishAt :=
        match bget b "publishAt" with
        | some v => if jsTruthy v then some (jsToString v) else none
        | none => none
      match wpCreatePost env w.wp
          { title := title, content := content, status := publishType,
            category := category, publishAt := publishAt, slug := some autoSlug,
            seoTitle := some autoSeoTitle, seoDescription := some autoSeoDesc,
            focusKeyword := some autoFocus, canonicalUrl := canonicalUrl } w.now with
      | (.error e, cs2, sent) =>
          { resp := jsonError 502 e.message, calls := scrapeCalls ++ cs ++ cs2,
            wpSent := sent }
      | (.ok wp, cs2, sent) =>
          { resp :=
              { status := 200,
                body := .obj
                  [("success", .bool true),
                   ("resolved", .obj
                     ([("keyword", .str keyword), ("hotelId", .str hid),
                       ("agodaHotelId", .str agodaHotelId),
                       ("affiliateUrl", .str affiliateUrl)] ++
                      (match cityName with
                       | some c => [("cityName", Json.str c)]
                       | none => []) ++
                      (match countryName with
                       | some c => [("countryName", Json.str c)]
                       | none => []) ++
                      [("slug", .str autoSlug), ("seoTitle", .str autoSeoTitle),
                       ("seoDescription", .str autoSeoDesc),
                       ("focusKeyword", .str autoFocus)])),
                   ("wp", wp)] },
            calls := scrapeCalls ++ cs ++ cs2, wpSent := sent }

/-- Source lines 919-1077: the `POST` handler of variant RB. -/
def post (env : Env) (req : Req) (w : World) : HResult :=
  if falsyS env.API_KEY then
    { resp := jsonError 500 "Missing env: API_KEY", calls := [] }
  else if falsyS req.apiKeyHeader || req.apiKeyHeader != env.API_KEY then
    { resp := jsonError 401 "Unauthorized: invalid x-api-key", calls := [] }
  else
    let b := (req.body.toOption).getD []
    let keywordRaw := safeStr (bget b "keyword")
    let inputHotelId := safeStr (bget b "hotelId")
    let hotelUrl := safeStr (bget b "hotelUrl")
    let version := normalizeVersion (bget b "version")
    let publishType := normalizePublishType (bget b "publishType")
    let category := jsNumberO (jsCoal (bget b "category") (.num 1))
    let checkInDate := let s := safeStr (bget b "checkInDate"); if s = "" then none else some s
    let checkOutDate := let s := safeStr (bget b "checkOutDate"); if s = "" then none else some s
    let slug := let s := safeStr (bget b "slug"); if s = "" then none else some s
    let seoTitle := let s := safeStr (bget b "seoTitle"); if s = "" then none else some s
    let seoDescription := let s := safeStr (bget b "seoDescription"); if s = "" then none else some s
    let focusKeyword := let s := safeStr (bget b "focusKeyword"); if s = "" then none else some s
    let canonicalUrl := let s := safeStr (bget b "canonicalUrl"); if s = "" then none else some s
    if category = none || category.getD 0 ≤ 0 then
      { resp := jsonError 400 "Invalid category", calls := [] }
    else
      match getAgodaAuthFromEnv env with
      | .error e => { resp := jsonError 502 e.message, calls := [] }
      | .ok auth =>
        let cid :=
          match env.AGODA_CID with
          | some c => if c ≠ "" then c else auth.siteId
          | none => auth.siteId
        let hidFromUrl := extractHotelIdFromUrl w.parseHid hotelUrl
        let hotelId0 :=
          match hidFromUrl with
          | some h => if h ≠ "" then some h else none
          | none => none
        let hotelId1 :=
          match hotelId0 with
          | some h => some h
          | none => if inputHotelId ≠ "" then some inputHotelId else none
        match hotelId1 with
        | some hid =>
            postAfterResolve env w b keywordRaw hid version publishType category
              checkInDate checkOutDate slug seoTitle seoDescription focusKeyword
              canonicalUrl cid []
        | none =>
            if keywordRaw = "" then
              { resp := jsonError 400
                  "Missing required field: keyword (or provide hotelUrl/hotelId)",
                calls := [] }
            else
              match resolveHotelIdFromKeyword w.scrape keywordRaw cid "ko-kr" w.now with
              | (none, cs) =>
                  { resp := jsonError 404
                      "hotelId 자동 찾기 실패 (keyword로 hid를 찾지 못함). partnersearch에서 hid를 확인하거나 keyword를 더 구체적으로 입력해줘."
                      (some (.obj [("keyword", .str keywordRaw)])),
                    calls := cs }
              | (some hid, cs) =>
                  postAfterResolve env w b keywordRaw hid version publishType category
                    checkInDate checkOutDate slug seoTitle seoDescription focusKeyword
                    canonicalUrl cid cs

end RB

/-! ## Variant P1: src/unnamed/part_001 -/

namespace P1

/-- The `Version` union type of variant P1 (three members only). -/
inductive Version where
  | V1
  | V2
  | V3
deriving DecidableEq

/-- String value of a `Version` member. -/
def verStr : Version → String
  | .V1 => "V1"
  | .V2 => "V2"
  | .V3 => "V3"

/-- Source lines 17-19: `jsonError` with a `{ success: false, message, ...extra }`
    body. -/
def jsonError (status : Nat) (message : String) (extra : List (String × Json) := []) : Resp :=
  { status := status,
    body := .obj ([("success", .bool false), ("message", .str message)] ++ extra) }

/-- Source lines 21-25: the seeded `pick` (`arr[Math.abs(seed) % arr.length]`;
    the empty-array throw is unreachable at every call site). -/
def pick (arr : List α) (seed : Int) (dflt : α) : α :=
  arr.getD (seed.natAbs % arr.length) dflt

/-- Wrap to a 32-bit signed integer (the `| 0` coercion). -/
def toInt32 (x : Int) : Int :=
  let m := ((x % 4294967296) + 4294967296) % 4294967296
  if m ≥ 2147483648 then m - 4294967296 else m

/-- Source lines 27-31: `hashSeed` over the UTF-16 code units, with 32-bit
    overflow at every step. -/
def hashSeed (s : String) : Int :=
  (utf16Of s).foldl (fun h c => toInt32 (h * 31 + (c : Int))) 0

/-- Source lines 33-38: `normalizePublishType` (lower-cased, trimmed). -/
def normalizePublishType (v : Option Json) : PublishType :=
  let s := jsTrim (jsLower (jsToString (jsOrU v (.str ""))))
  if s = "publish" then .publish
  else if s = "future" then .future
  else .draft

/-- Source lines 40-45: `normalizeVersion` (upper-cased, trimmed; default V3). -/
def normalizeVersion (v : Option Json) : Version :=
  let s := jsTrim (jsUpper (jsToString (jsOrU v (.str ""))))
  if s = "V1" then .V1
  else if s = "V2" then .V2
  else .V3

/-- Source lines 47-52: `toYMD`. -/
def toYMD (d : JsDate) : String :=
  toString d.year ++ "-" ++ pad2 d.month ++ "-" ++ pad2 d.day

/-- Source lines 54-62: `getDefaultDates`, today + 30 / + 33 days. -/
def getDefaultDates (now : JsDate) : String × String :=
  (toYMD (jsAddDays now 30), toYMD (jsAddDays now 33))

/-- Source lines 64-66: `base64`. -/
def base64 (s : String) : String :=
  btoaUtf8 s

/-- Source lines 69-77: `extractHidFromHotelUrl` (URL parsing via the oracle;
    empty string on failure; no digit check in this variant). -/
def extractHidFromHotelUrl (pu : HidOracle) (hotelUrl : String) : String :=
  match pu hotelUrl with
  | some (some hid) => if hid ≠ "" then jsTrim hid else ""
  | some none => ""
  | none => ""

/-- Head match of the regex `s=\d+x\d+`: consume it and return the remainder. -/
def trySizeMatch (l : List Char) : Option (List Char) :=
  match l with
  | 's' :: '=' :: rest =>
      let d1 := rest.takeWhile isDigit
      if d1.isEmpty then none
      else
        match rest.drop d1.length with
        | 'x' :: rest2 =>
            let d2 := rest2.takeWhile isDigit
            if d2.isEmpty then none else some (rest2.drop d2.length)
        | _ => none
  | _ => none

/-- Global replace `url.replace(/s=\d+x\d+/g, "s=" + size)` (fuel-bounded scan;
    fuel = input length suffices since every step consumes a character). -/
def sizeReplF (size : String) : Nat → List Char → List Char
  | 0, l => l
  | _ + 1, [] => []
  | fuel + 1, c :: rest =>
      match trySizeMatch (c :: rest) with
      | some after => ("s=" ++ size).data ++ sizeReplF size fuel after
      | none => c :: sizeReplF size fuel rest

/-- Source lines 80-92: `ensureSize` (URL branch through the oracle, regex and
    append fallbacks spelled out). -/
def ensureSize (o : SizeUrlOracle) (url size : String) : String :=
  match o url size with
  | some v => v
  | none =>
      if jsIncludes url "s=" then String.mk (sizeReplF size url.data.length url.data)
      else url ++ (if jsIncludes url "?" then "&" else "?") ++ "s=" ++ size

/-- The `pushUnique` closure of source lines 97-101: skip falsy and
    trim-empty values, deduplicate, push the trimmed value. -/
def pushUnique (out : List String) (u : String) : List String :=
  if u = "" then out
  else
    let x := jsTrim u
    if x = "" then out
    else if out.contains x then out
    else out ++ [x]

/-- Source lines 94-123: `buildImageUrls`. -/
def buildImageUrls (o : SizeUrlOracle) (imageURL : Option String)
    (imageUrls : Option (List String)) : List String :=
  let out0 :=
    match imageUrls with
    | some l => l.foldl pushUnique []
    | none => []
  let out1 :=
    match imageURL with
    | some u =>
        if u ≠ "" then
          pushUnique (pushUnique (pushUnique out0 (ensureSize o u "1200x800"))
            (ensureSize o u "1000x750")) (ensureSize o u "800x600")
        else out0
    | none => out0
  if out1.length = 1 then out1 ++ [out1.getD 0 "", out1.getD 0 ""]
  else if out1.length = 2 then out1 ++ [out1.getD 1 ""]
  else if out1.length > 3 then out1.take 3
  else out1

/-- Source lines 128-147: `agodaFetchHotelByHid` (dead code in this variant:
    `POST` never calls it; it returns the endpoint/hid pair unchanged). -/
def agodaFetchHotelByHid (env : Env) (hid : String) : Except JsError (String × String) :=
  if falsyS env.AGODA_AUTH then .error ⟨"Missing env: AGODA_AUTH", none⟩
  else .ok ("https://www.agoda.com/partners/partnersearch.aspx", hid)

/-- Source lines 152-171: `buildTitle`, seeded by keyword/hotel/version. -/
def buildTitle (keyword hotelName : String) (version : Version) : String :=
  let seed := hashSeed (keyword ++ "|" ++ hotelName ++ "|" ++ verStr version)
  let v3 :=
    [hotelName ++ " | " ++ keyword ++ " 예약 전 꼭 볼 정보",
     keyword ++ " 추천: " ++ hotelName ++ " 후기·시설·예약팁 총정리",
     hotelName ++ " 완벽 가이드 | " ++ keyword ++ " 최저가 체크 포인트",
     keyword ++ " 숙소로 " ++ hotelName ++ " 어때? 핵심만 정리"]
  let v2 :=
    [keyword ++ " 인기 숙소: " ++ hotelName ++ " 한눈에 보기",
     hotelName ++ " | " ++ keyword ++ " 가성비·위치·시설 요약",
     keyword ++ " 숙소 추천: " ++ hotelName ++ " 체크리스트",
     hotelName ++ " 예약 가이드 | " ++ keyword ++ " 핵심 요약"]
  let v1 := [hotelName ++ " | " ++ keyword ++ " 예약 가이드"]
  match version with
  | .V1 => v1.getD 0 ""
  | .V2 => pick v2 seed ""
  | .V3 => pick v3 seed ""

/-- Arguments of variant P1's `buildHtml` (source lines 176-201).  The
    `reviewScore` keeps the present/NaN distinction (`some none` is `NaN`). -/
structure BuildArgs where
  version : Version
  keyword : String
  hotelName : String
  reviewScore : Option (Option Int) := none
  affiliateUrl : String
  cityName : Option String := none
  countryName : Option String := none
  checkInDate : Option String := none
  checkOutDate : Option String := none
  imageURL : Option String := none
  imageUrls : Option (List String) := none

/-- Rendering of `n.toFixed(1)` for the integral scores the model carries
    (`NaN.toFixed(1)` is `"NaN"`). -/
def toFixed1 (n : Option Int) : String :=
  match n with
  | some v => toString v ++ ".0"
  | none => "NaN"

/-- Source lines 176-418: `buildHtml` of variant P1.  All selection is seeded
    by `hashSeed(keyword + "|" + hotelName)`, so the function is a pure
    function of its arguments (and the URL oracle used by `buildImageUrls`). -/
def buildHtml (o : SizeUrlOracle) (a : BuildArgs) : String :=
  let seed := hashSeed (a.keyword ++ "|" ++ a.hotelName)
  let imgs := buildImageUrls o a.imageURL a.imageUrls
  let scoreText :=
    match a.reviewScore with
    | some n => toFixed1 n ++ " / 10"
    | none => "예약 페이지에서 확인"
  let locationText :=
    let j := String.intercalate " "
      (((match a.countryName with
         | some c => [c]
         | none => []) ++
        (match a.cityName with
         | some c => [c]
         | none => [])).filter (fun s => s ≠ ""))
    if j ≠ "" then j else "예약 페이지에서 확인"
  let tagsPool :=
    [["#가족여행", "#리조트휴양", "#수영장좋은숙소"],
     ["#커플여행", "#허니문", "#오션뷰"],
     ["#가성비숙소", "#첫방문", "#동선좋은숙소"],
     ["#키즈프렌들리", "#부대시설", "#조식맛집"]]
  let tags := String.intercalate " " (pick tagsPool seed [])
  let introPool :=
    ["여행 준비할 때 숙소에서 시간을 가장 많이 쓰죠. 특히 <strong>" ++ a.keyword ++
       "</strong>처럼 검색량이 많은 키워드는 정보가 넘쳐서 오히려 결정이 어려워요. 그래서 이 글은 “예약 직전” 단계에서 필요한 핵심만 정리했습니다.",
     "숙소는 사진만 보고 고르면 실패 확률이 올라가요. <strong>" ++ a.keyword ++
       "</strong>로 찾는 분들이 자주 놓치는 포인트(동선/조식/객실 타입/성수기 요금)를 중심으로 <strong>" ++
       a.hotelName ++ "</strong>을 정리했어요.",
     "리조트형 숙소는 “어디에 있느냐”가 체감 만족도를 크게 좌우해요. <strong>" ++ a.keyword ++
       "</strong>로 <strong>" ++ a.hotelName ++
       "</strong>을 고민 중이라면, 아래 체크리스트만 봐도 선택이 훨씬 쉬워질 거예요."]
  let intro := pick introPool seed ""
  let whyPool :=
    ["이 키워드가 많이 검색되는 이유는 대개 3가지예요. (1) 일정 대부분을 숙소에서 해결하는 “올인원 동선”, (2) 가족/커플 모두 무난한 객실 구성, (3) 성수기에도 선택지가 많아 비교가 쉬운 점. 특히 리조트는 ‘부대시설’이 일정의 절반을 결정하니, 수영장/키즈존/해변 접근성을 꼭 확인하세요.",
     "검색량이 높은 숙소는 장점이 분명하지만, 단점도 같이 따라옵니다. 대표적으로 성수기 혼잡도, 객실동 위치에 따른 소음/전망 차이, 조식 시간대 대기 같은 요소들이죠. 그래서 예약 전에 “방 타입/전망/무료취소 마감일”만 확인해도 만족도가 크게 올라가요.",
     "후기를 보면 칭찬 포인트가 반복됩니다. 수영장 규모, 조식 구성, 직원 응대, 그리고 객실 컨디션. 반대로 아쉬운 점도 반복돼요. 외부 이동 거리, 체크인 대기, 성수기 가격 급등 같은 것들. 이 글에서는 그 반복 포인트를 기준으로 판단할 수 있게 정리했어요."]
  let why := pick whyPool seed ""
  let roomPool :=
    ["객실은 “기본형 → 업그레이드형(전망/면적) → 특수형(스위트/빌라)” 순으로 고민하면 쉬워요. 보통 만족도를 가르는 건 침대 타입보다 <strong>전망</strong>과 <strong>객실동 위치</strong>입니다. 리조트형 숙소는 로비/조식당/수영장까지 이동 동선이 길 수 있어서, 이동이 부담이라면 ‘메인 시설과 가까운 동’이 체감이 좋아요.",
     "가족 여행이라면 커넥팅룸/엑스트라베드 정책이 핵심이에요. 숙소마다 추가 인원 요금이나 조식 포함 범위가 달라서, “어른 2 + 아이” 구성이라면 예약 옵션을 꼭 비교하세요. 커플/허니문이라면 오션뷰/하이층/발코니 여부가 만족도를 끌어올리는 포인트가 됩니다.",
     "객실 컨디션은 ‘최근 리노베이션 여부’가 중요하지만, 예약 페이지에서 확인이 어려울 때가 많아요. 이럴 때는 후기에서 “샤워 수압/침구/냄새/에어컨” 언급이 많은지 보세요. 같은 호텔이어도 객실동에 따라 편차가 생깁니다."]
  let room := pick roomPool seed ""
  let facilityPool :=
    ["수영장/해변은 사진만 보면 다 좋아 보이지만, 실제로는 <strong>그늘(선베드 수)</strong>과 <strong>바람</strong>, 그리고 <strong>아이 동반 안전성</strong>에서 차이가 나요. 메인풀은 사람이 몰릴 수 있으니 오전/해질녘 이용이 만족도가 높고, 키즈풀/슬라이드 운영시간은 시즌마다 바뀌니 예약 페이지나 공지 확인을 추천해요.",
     "조식은 “구성(메뉴 다양성)”과 “혼잡(대기/좌석)”이 포인트입니다. 성수기에는 8~9시가 피크라 대기가 생길 수 있어요. 일정이 빡빡하면 오픈런(첫 타임)으로 시간을 절약하는 게 좋고, 커피/즉석 코너(쌀국수/오믈렛)가 잘 운영되는지 후기를 체크해보세요.",
     "부대시설은 ‘있다/없다’보다 ‘운영시간/예약제/유료 여부’가 중요합니다. 스파·키즈클럽·셔틀은 유료 또는 시간대 제한이 있는 경우가 많고, 인기 프로그램은 미리 예약이 필요할 수 있어요."]
  let facility := pick facilityPool seed ""
  let checklist :=
    ["무료취소 마감일(언제까지 수수료 0원인지)",
     "조식 포함/불포함 가격 차이(총액 기준으로 비교)",
     "객실 타입(전망/침대/인원 정책)과 추가요금",
     "성수기 가격 변동(1~2일만 바꿔도 차이 나는지)",
     "공항/역 이동 시간 + 셔틀/택시 비용 대략"]
  let faq : List RB.QA :=
    [⟨a.hotelName ++ " 체크인/체크아웃 팁이 있나요?",
      "정확한 시간은 예약 페이지 정책이 기준이에요. 늦은 체크인이라면 프런트 운영/야간 체크인 가능 여부를 확인해두면 좋아요."⟩,
     ⟨a.hotelName ++ " 조식은 어떤가요?",
      "조식은 시즌/요일에 따라 구성이 달라질 수 있어요. 혼잡 시간대(보통 8~9시)를 피하면 체감 만족도가 올라갑니다."⟩,
     ⟨a.hotelName ++ " 가족 여행에 괜찮나요?",
      "가족이라면 객실 인원 정책, 키즈풀/키즈존 유무, 이동 동선(로비↔객실↔수영장)을 먼저 체크하는 걸 추천해요."⟩]
  let faqJsonLd : Json := .obj
    [("@context", .str "https://schema.org"), ("@type", .str "FAQPage"),
     ("mainEntity", .arr (faq.map (fun x => .obj
       [("@type", .str "Question"), ("name", .str x.q),
        ("acceptedAnswer", .obj [("@type", .str "Answer"), ("text", .str x.a)])])))]
  let isLong := a.version = Version.V3
  let img0 := (imgs.get? 0).getD "undefined"
  let img1 := (imgs.get? 1).getD "undefined"
  let img2 := (imgs.get? 2).getD "undefined"
  let hero := "\n<div style=\"text-align:center;margin:18px 0;\">\n  <img src=\"" ++ img0 ++
    "\" alt=\"" ++ a.hotelName ++
    " 대표 이미지\" style=\"max-width:100%;border-radius:14px;\" />\n</div>"
  let cta1 := "\n<div style=\"margin:18px 0;text-align:center;\">\n  <a href=\"" ++
    a.affiliateUrl ++
    "\" target=\"_blank\" rel=\"nofollow noopener\"\n     style=\"background:#ff5a5f;color:#fff;padding:14px 22px;border-radius:12px;text-decoration:none;font-weight:800;display:inline-block;\">\n    👉 아고다 최저가 확인하기\n  </a>\n</div>"
  let infoBox := "\n<div style=\"border:1px solid #e5e7eb;border-radius:14px;padding:14px 16px;background:#f8fafc;margin:18px 0;\">\n  <div style=\"font-weight:900;font-size:16px;margin-bottom:10px;\">🏨 호텔 기본 정보</div>\n  <div style=\"display:grid;grid-template-columns:1fr 1fr;gap:10px;font-size:14px;line-height:1.55;\">\n    <div><b>호텔명</b><br/>" ++
    a.hotelName ++ "</div>\n    <div><b>키워드</b><br/>" ++ a.keyword ++
    "</div>\n    <div><b>위치</b><br/>" ++ locationText ++
    "</div>\n    <div><b>평점</b><br/>" ++ scoreText ++
    "</div>\n    <div><b>추천 일정</b><br/>" ++
    (if optTruthy a.checkInDate && optTruthy a.checkOutDate then
      a.checkInDate.getD "" ++ " ~ " ++ a.checkOutDate.getD ""
     else "원하는 날짜로 확인") ++
    "</div>\n    <div><b>추천 태그</b><br/>" ++ tags ++
    "</div>\n  </div>\n  <div style=\"margin-top:10px;color:#374151;font-size:13px;\">\n    조건(날짜/요금/방 타입)에 따라 체감 만족도가 크게 달라질 수 있어요.\n  </div>\n</div>"
  let gallery := "\n<h2>객실/전경 이미지</h2>\n<div style=\"display:grid;grid-template-columns:1fr;gap:12px;margin:14px 0;\">\n  <img src=\"" ++
    img1 ++ "\" alt=\"" ++ a.hotelName ++
    " 객실 이미지\" style=\"max-width:100%;border-radius:14px;\" />\n  <img src=\"" ++
    img2 ++ "\" alt=\"" ++ a.hotelName ++
    " 전경/부대시설 이미지\" style=\"max-width:100%;border-radius:14px;\" />\n</div>"
  let cta2 := "\n<div style=\"margin:18px 0;text-align:center;\">\n  <a href=\"" ++
    a.affiliateUrl ++
    "\" target=\"_blank\" rel=\"nofollow noopener\"\n     style=\"background:#ff5a5f;color:#fff;padding:14px 22px;border-radius:12px;text-decoration:none;font-weight:800;display:inline-block;\">\n    👉 현재 날짜로 가격/객실 확인\n  </a>\n</div>"
  let checklistHtml := "\n<h2>예약 전 체크리스트</h2>\n<ul style=\"margin:10px 0 0 18px;\">\n  " ++
    String.join (checklist.map (fun x => "<li style=\"margin:7px 0;\">" ++ x ++ "</li>")) ++
    "\n</ul>"
  let cta3 := "\n<div style=\"margin:18px 0;text-align:center;\">\n  <a href=\"" ++
    a.affiliateUrl ++
    "\" target=\"_blank\" rel=\"nofollow noopener\"\n     style=\"background:#ff5a5f;color:#fff;padding:14px 22px;border-radius:12px;text-decoration:none;font-weight:800;display:inline-block;\">\n    👉 예약 페이지로 이동\n  </a>\n</div>"
  let faqHtml := "\n<h2>자주 묻는 질문(FAQ)</h2>\n<div style=\"margin-top:10px;\">\n  " ++
    String.join (faq.map (fun x =>
      "\n    <div style=\"margin:12px 0;padding:12px 14px;border:1px solid #e5e7eb;border-radius:12px;background:#fff;\">\n      <div style=\"font-weight:900;\">Q. " ++
      x.q ++ "</div>\n      <div style=\"margin-top:8px;color:#374151;line-height:1.7;\">A. " ++
      x.a ++ "</div>\n    </div>")) ++
    "\n</div>"
  let hashtags := "\n<h2>해시태그</h2>\n<p>" ++
    String.intercalate " " (dedupBy (fun x y => x == y)
      ([a.keyword, "숙소추천", "리조트", "가족여행", "커플여행"].map
        (fun x => "#" ++ keepChars (fun c => ¬ jsIsWs c) x))) ++ "</p>"
  let schemaScript := "\n<script type=\"application/ld+json\">\n" ++
    jsonStringifyP 0 faqJsonLd ++ "\n</script>"
  let longBody := jsTrim ("\n<h1>" ++ a.keyword ++ " 추천 호텔: " ++ a.hotelName ++
    "</h1>\n<p>" ++ intro ++ "</p>\n\n" ++ cta1 ++ "\n" ++ hero ++ "\n" ++ infoBox ++
    "\n\n<h2>왜 " ++ a.keyword ++ " 검색이 많을까?</h2>\n<p>" ++ why ++
    "</p>\n\n<h2>객실 구성과 실제 체감</h2>\n<p>" ++ room ++
    "</p>\n\n<h2>수영장·조식·부대시설 포인트</h2>\n<p>" ++ facility ++ "</p>\n\n" ++
    gallery ++
    "\n\n<h2>이런 여행자에게 추천</h2>\n<ul style=\"margin:10px 0 0 18px;\">\n  <li style=\"margin:7px 0;\">아이 동반 가족 여행(키즈 동선/시설 중시)</li>\n  <li style=\"margin:7px 0;\">리조트 중심 휴양 일정(숙소 내에서 대부분 해결)</li>\n  <li style=\"margin:7px 0;\">커플/허니문(전망·분위기·프라이버시 중시)</li>\n  <li style=\"margin:7px 0;\">부대시설(수영장/스파/키즈존) 활용도가 높은 여행</li>\n</ul>\n\n" ++
    checklistHtml ++ "\n" ++ cta2 ++ "\n" ++ faqHtml ++ "\n" ++ cta3 ++ "\n" ++
    hashtags ++ "\n" ++ schemaScript ++ "\n")
  let shortBody := jsTrim ("\n" ++ hero ++ "\n<h2>" ++ a.keyword ++ " 추천 호텔: " ++
    a.hotelName ++
    "</h2>\n<p>시간 아끼려고 핵심만 담았어요. 예약 전에 아래 체크리스트만 확인해도 충분해요.</p>\n" ++
    cta1 ++ "\n" ++ infoBox ++ "\n" ++ checklistHtml ++ "\n" ++ cta2 ++ "\n" ++
    faqHtml ++ "\n" ++ hashtags ++ "\n" ++ schemaScript ++ "\n")
  if isLong then longBody else shortBody

/-- Parameters of variant P1's `wpCreatePost` (source lines 423-435). -/
structure WpParams where
  title : String
  content : String
  status : PublishType
  category : Option Int
  publishAt : Option String := none
  slug : Option String := none
  seoTitle : Option String := none
  seoDescription : Option String := none
  focusKeyword : Option String := none
  canonicalUrl : Option String := none

/-- The re-normalized status of source lines 445-446: only `publish`/`future`
    pass through, anything else becomes `draft`. -/
def finalStatusOf (s : PublishType) : PublishType :=
  match s with
  | .publish => .publish
  | .future => .future
  | .draft => .draft

/-- The JSON body `wpCreatePost` posts (source lines 450-481). -/
def wpBodyOf (p : WpParams) (now : JsDate) : Json :=
  let finalStatus := finalStatusOf p.status
  .obj
    ([("title", .str p.title), ("content", .str p.content),
      ("status", .str (ptStr finalStatus)),
      ("categories", .arr [jsNumJson p.category])] ++
     (if optTruthy p.slug then [("slug", .str (p.slug.getD ""))] else []) ++
     (if optTruthy p.seoDescription then [("excerpt", .str (p.seoDescription.getD ""))] else []) ++
     [("meta", .obj
       ((if optTruthy p.seoTitle then [("rank_math_title", Json.str (p.seoTitle.getD ""))] else []) ++
        (if optTruthy p.seoDescription then [("rank_math_description", Json.str (p.seoDescription.getD ""))] else []) ++
        (if optTruthy p.focusKeyword then [("rank_math_focus_keyword", Json.str (p.focusKeyword.getD ""))] else []) ++
        (if optTruthy p.canonicalUrl then [("rank_math_canonical_url", Json.str (p.canonicalUrl.getD ""))] else [])))] ++
     (if finalStatusOf p.status = PublishType.future then
        [("date", .str (jsOrS p.publishAt (isoRender (jsSetHours (jsAddDays now 1) 9 0 0 0))))]
      else []))

/-- Source lines 423-501: `wpCreatePost`. -/
def wpCreatePost (env : Env) (resp : FetchResp) (p : WpParams) (now : JsDate) :
    Except JsError Json × List Call × Option Json :=
  if falsyS env.WP_URL then (.error ⟨"Missing env: WP_URL", none⟩, [], none)
  else if falsyS env.WP_USERNAME then (.error ⟨"Missing env: WP_USERNAME", none⟩, [], none)
  else if falsyS env.WP_APP_PASSWORD then (.error ⟨"Missing env: WP_APP_PASSWORD", none⟩, [], none)
  else
    let body := wpBodyOf p now
    let data : Json := resp.json.getD .null
    if !resp.ok then
      (.error ⟨"WP API failed: " ++ toString resp.status ++ " " ++ resp.text, none⟩,
       [.wpPublish false], some body)
    else (.ok data, [.wpPublish true], some body)

/-- Value of `body.k ? String(body.k).trim() : ""`. -/
def strIfTruthy (o : Option Json) : String :=
  if jsTruthyO o then jsTrim (jsToString (o.getD .null)) else ""

/-- Value of `body.k ? String(body.k).trim() : undefined`. -/
def strIfTruthyU (o : Option Json) : Option String :=
  if jsTruthyO o then some (jsTrim (jsToString (o.getD .null))) else none

/-- Rendering `String(n)` of a JS number (NaN included). -/
def jsNumToString (o : Option Int) : String :=
  match o with
  | some n => toString n
  | none => "NaN"

/-- The world of variant P1: the URL oracles, the publish response and the clock
    (this variant performs no hotel lookup). -/
structure World where
  parseHid : HidOracle
  sizeUrl : SizeUrlOracle
  wp : FetchResp
  now : JsDate

/-- Source lines 507-637: the `POST` handler of variant P1.  Note the auth gate
    is skipped entirely when `API_KEY` is not configured. -/
def post (env : Env) (req : Req) (w : World) : HResult :=
  if (match env.API_KEY with
      | some k => k ≠ "" && (req.apiKeyHeader.getD "") ≠ k
      | none => false) then
    { resp := jsonError 401 "Unauthorized: invalid x-api-key", calls := [] }
  else
    let b := (req.body.toOption).getD []
    let keyword := jsTrim (jsToString (jsOrU (bget b "keyword") (.str "")))
    if keyword = "" then
      { resp := jsonError 400 "keyword is required", calls := [] }
    else
      let inputHotelId := strIfTruthy (bget b "hotelId")
      let hotelUrl := strIfTruthy (bget b "hotelUrl")
      let version := normalizeVersion (bget b "version")
      let publishType := normalizePublishType (bget b "publishType")
      let category := jsNumberO (jsCoal (bget b "category") (.num 1))
      let d := getDefaultDates w.now
      let checkInDate := jsOrS (strIfTruthyU (bget b "checkInDate")) d.1
      let checkOutDate := jsOrS (strIfTruthyU (bget b "checkOutDate")) d.2
      let slug := strIfTruthyU (bget b "slug")
      let seoTitle := strIfTruthyU (bget b "seoTitle")
      let seoDescription := strIfTruthyU (bget b "seoDescription")
      let focusKeyword := strIfTruthyU (bget b "focusKeyword")
      let canonicalUrl := strIfTruthyU (bget b "canonicalUrl")
      let hl := jsOrS (strIfTruthyU (bget b "hl")) "ko-kr"
      let adults :=
        if jsTruthyO (bget b "adults") then jsNumberO ((bget b "adults").getD .null)
        else some 2
      let rooms :=
        if jsTruthyO (bget b "rooms") then jsNumberO ((bget b "rooms").getD .null)
        else some 1
      let hotelId :=
        if inputHotelId ≠ "" then inputHotelId
        else if hotelUrl ≠ "" then extractHidFromHotelUrl w.parseHid hotelUrl
        else ""
      if hotelId = "" then
        { resp := jsonError 400 "hotelId(hid) 또는 hotelUrl(파트너 링크, hid 포함)이 필요합니다."
            [("hint", .obj [("example", .obj
              [("keyword", .str keyword), ("hotelId", .str "625168"),
               ("publishType", .str "draft"), ("version", .str "V3")])])],
          calls := [] }
      else
        let cid := jsOrS env.AGODA_CID "1959499"
        let affiliateUrl :=
          "https://www.agoda.com/partners/partnersearch.aspx?hid=" ++
          encodeURIComponent hotelId ++ "&cid=" ++ encodeURIComponent cid ++
          "&hl=" ++ encodeURIComponent hl ++ "&rooms=" ++
          encodeURIComponent (jsNumToString rooms) ++ "&adults=" ++
          encodeURIComponent (jsNumToString adults) ++
          (if checkInDate ≠ "" then "&checkIn=" ++ encodeURIComponent checkInDate else "") ++
          (if checkOutDate ≠ "" then "&checkOut=" ++ encodeURIComponent checkOutDate else "")
        let hotelName := strIfTruthy (bget b "hotelName")
        let reviewScore :=
          match bget b "reviewScore" with
          | some v => some (jsNumberO v)
          | none => none
        let imageURL := strIfTruthyU (bget b "imageURL")
        let imageUrls :=
          match bget b "imageUrls" with
          | some (.arr xs) => some (xs.map jsToString)
          | _ => none
        let cityName := strIfTruthyU (bget b "cityName")
        let countryName := strIfTruthyU (bget b "countryName")
        let safeHotelName :=
          if hotelName ≠ "" then hotelName else "Agoda Hotel (hid:" ++ hotelId ++ ")"
        let title := buildTitle keyword safeHotelName version
        let content := buildHtml w.sizeUrl
          { version := version, keyword := keyword, hotelName := safeHotelName,
            reviewScore := reviewScore, affiliateUrl := affiliateUrl,
            cityName := cityName, countryName := countryName,
            checkInDate := some checkInDate, checkOutDate := some checkOutDate,
            imageURL := imageURL, imageUrls := imageUrls }
        match wpCreatePost env w.wp
            { title := title, content := content, status := publishType,
              category := category, slug := slug, seoTitle := seoTitle,
              seoDescription := seoDescription, focusKeyword := focusKeyword,
              canonicalUrl := canonicalUrl } w.now with
        | (.error e, cs, sent) =>
            { resp := jsonError 500 e.message [("stack", .str "")],
              calls := cs, wpSent := sent }
        | (.ok wp, cs, sent) =>
            { resp :=
                { status := 200,
                  body := .obj
                    [("success", .bool true),
                     ("resolved", .obj
                       ([("keyword", .str keyword), ("hotelId", .str hotelId),
                         ("affiliateUrl", .str affiliateUrl),
                         ("version", .str (verStr version)),
                         ("publishType", .str (ptStr publishType))] ++
                        (match slug with
                         | some s => [("slug", Json.str s)]
                         | none => []) ++
                        (match seoTitle with
                         | some s => [("seoTitle", Json.str s)]
                         | none => []) ++
                        (match seoDescription with
                         | some s => [("seoDescription", Json.str s)]
                         | none => []) ++
                        (match focusKeyword with
                         | some s => [("focusKeyword", Json.str s)]
                         | none => []) ++
                        (match canonicalUrl with
                         | some s => [("canonicalUrl", Json.str s)]
                         | none => []) ++
                        (match imageURL with
                         | some s => [("imageURL", Json.str s)]
                         | none => []) ++
                        (match imageUrls with
                         | some l => [("imageUrls", Json.arr (l.map Json.str))]
                         | none => []))),
                     ("wp", wp)] },
              calls := cs, wpSent := sent }

end P1

/-! ## Variant P0: src/unnamed/part_000 -/

namespace P0

/-- Source lines 3-5: `missing` — the env names that are unset, empty or blank. -/
def missingEnv (env : Env) (keys : List String) : List String :=
  keys.filter (fun k => falsyS (envGet env k) || jsTrim ((envGet env k).getD "") = "")

/-- Source lines 7-15: `slugify` of variant P0. -/
def slugify (input : String) : String :=
  let s1 := jsTrim (jsLower input)
  let s2 := s1.data.filter (fun c => c ≠ '\'' && c ≠ '"')
  let s3 := collapseRuns (fun c => ¬ (('a' ≤ c && c ≤ 'z') || ('0' ≤ c && c ≤ '9'))) '-' s2
  let s4 := ((s3.dropWhile (fun c => c = '-')).reverse.dropWhile (fun c => c = '-')).reverse
  String.mk (takeUnits 80 s4)

/-- The backtick character (96) of fenced code blocks. -/
def btick : Char :=
  Char.ofNat 96

/-- Replacement of `\r\n` pairs by `\n`. -/
def stripCRLF : List Char → List Char
  | [] => []
  | '\r' :: '\n' :: r => '\n' :: stripCRLF r
  | c :: r => c :: stripCRLF r

/-- Word character of the regex `\w`. -/
def isWordChar (c : Char) : Bool :=
  ('a' ≤ c && c ≤ 'z') || ('A' ≤ c && c ≤ 'Z') || ('0' ≤ c && c ≤ '9') || c = '_'

/-- Lazy scan to the nearest closing triple-backtick fence: the body before it
    and the remainder after it. -/
def takeUntilFence : List Char → Option (List Char × List Char)
  | [] => none
  | c :: r =>
      if startsWithL (c :: r) [btick, btick, btick] then some ([], r.drop 2)
      else
        match takeUntilFence r with
        | some (b, rest) => some (c :: b, rest)
        | none => none

/-- Global case-insensitive replacement of `</script>` by `<\/script>`
    (fuel-bounded scan). -/
def replScriptF : Nat → List Char → List Char
  | 0, l => l
  | _ + 1, [] => []
  | fuel + 1, c :: r =>
      match stripCI (c :: r) "</script>".data with
      | some rest => "<\\/script>".data ++ replScriptF fuel rest
      | none => c :: replScriptF fuel r

/-- The replacement callback for one fenced block (source lines 23-32). -/
def fencedReplacement (lang body : List Char) : String :=
  let l := jsTrim (jsLower (String.mk lang))
  let inner := jsTrim (String.mk body)
  let looksLikeSchema :=
    jsIncludes inner "\"@context\"" || jsIncludes inner "https://schema.org"
  if l = "json" || looksLikeSchema then
    let safe := String.mk (replScriptF inner.data.length inner.data)
    "\n<script type=\"application/ld+json\">\n" ++ safe ++ "\n</script>\n"
  else "\n" ++ inner ++ "\n"

/-- Global replacement of ```` ```lang\nbody``` ```` fences (fuel-bounded scan;
    a fence without a closing fence does not match and scanning advances). -/
def fenceRepl : Nat → List Char → List Char
  | 0, l => l
  | _ + 1, [] => []
  | fuel + 1, c :: r =>
      if startsWithL (c :: r) [btick, btick, btick] then
        let afterTicks := r.drop 2
        let lang := afterTicks.takeWhile isWordChar
        match afterTicks.drop lang.length with
        | '\n' :: rest =>
            match takeUntilFence rest with
            | some (bodyChars, after) =>
                (fencedReplacement lang bodyChars).data ++ fenceRepl fuel after
            | none => c :: fenceRepl fuel r
        | _ => c :: fenceRepl fuel r
      else c :: fenceRepl fuel r

/-- Split of a line tail into the `\s+`/`(.+)` parts of the heading regexes:
    the capture after the mandatory whitespace (with the regex backtracking
    leaving one character when the tail is all whitespace). -/
def splitHeadTail (t : List Char) : Option (List Char) :=
  match t with
  | [] => none
  | c0 :: _ =>
      if ¬ jsIsWs c0 then none
      else
        let w := t.takeWhile jsIsWs
        if w.length = t.length then
          if t.length ≥ 2 then some (t.drop (t.length - 1)) else none
        else some (t.drop w.length)

/-- Head match of `^\s*#\s+.+$` (one `#`, not `##`): the remainder after the
    matched span.  (The rare case of the second `\s+` crossing a newline is
    not modelled; the handlers never generate it.) -/
def tryH1 (l : List Char) : Option (List Char) :=
  let ws := l.takeWhile jsIsWs
  match l.drop ws.length with
  | '#' :: r2 =>
      match r2 with
      | '#' :: _ => none
      | _ =>
          let t := r2.takeWhile (fun c => c ≠ '\n')
          match splitHeadTail t with
          | some _ => some (r2.drop t.length)
          | none => none
  | _ => none

/-- Head match of a heading line `^\s*<marks>\s+(.+)$`, yielding the
    replacement and the remainder. -/
def tryHeading (marks open_ close_ : String) (l : List Char) : Option (String × List Char) :=
  let ws := l.takeWhile jsIsWs
  let r1 := l.drop ws.length
  if startsWithL r1 marks.data then
    let r2 := r1.drop marks.data.length
    match r2 with
    | '#' :: _ => none
    | _ =>
        let t := r2.takeWhile (fun c => c ≠ '\n')
        match splitHeadTail t with
        | some cap => some (open_ ++ String.mk cap ++ close_, r2.drop t.length)
        | none => none
  else none

/-- One multiline (`/gm`) pass: at every line start, try the matcher and emit
    its replacement (fuel-bounded scan over the input). -/
def linePassF (f : List Char → Option (String × List Char)) :
    Nat → Bool → List Char → List Char
  | 0, _, l => l
  | _ + 1, _, [] => []
  | fuel + 1, atStart, c :: r =>
      if atStart then
        match f (c :: r) with
        | some (rep, rest) => rep.data ++ linePassF f fuel false rest
        | none => c :: linePassF f fuel (c = '\n') r
      else c :: linePassF f fuel (c = '\n') r

/-- Head match of the bullet regex `^[-–•*]\s+(.+)$` on a trimmed line. -/
def bulletCap (t : List Char) : Option String :=
  match t with
  | c :: rest =>
      if c = '-' || c = '–' || c = '•' || c = '*' then
        (splitHeadTail rest).map String.mk
      else none
  | [] => none

/-- The list-building loop of source lines 44-80. -/
def bulletPass : List String → Bool → List String
  | [], inUl => if inUl then ["</ul>"] else []
  | line :: rest, inUl =>
      let t := jsTrim line
      match bulletCap t.data with
      | some cap =>
          (if inUl then [] else ["<ul>"]) ++ ("<li>" ++ cap ++ "</li>") ::
            bulletPass rest true
      | none =>
          (if inUl then ["</ul>"] else []) ++ (if t = "" then "" else line) ::
            bulletPass rest false

/-- Split on runs of two or more newlines (`split(/\n{2,}/)`, fuel-bounded). -/
def splitBlankAux : Nat → List Char → List Char → List String
  | 0, acc, l => [String.mk (acc.reverse ++ l)]
  | _ + 1, acc, [] => [String.mk acc.reverse]
  | fuel + 1, acc, '\n' :: '\n' :: r =>
      String.mk acc.reverse :: splitBlankAux fuel [] (r.dropWhile (fun c => c = '\n'))
  | fuel + 1, acc, c :: r => splitBlankAux fuel (c :: acc) r

/-- Chunks already recognized as HTML blocks (source lines 88-93). -/
def isBlockChunk (c : String) : Bool :=
  startsWithL c.data "<h2>".data || startsWithL c.data "<h3>".data ||
  startsWithL c.data "<h4>".data || startsWithL c.data "<ul>".data ||
  startsWithL c.data "<script".data

/-- Source lines 18-98: `prepareWpHtml`. -/
def prepareWpHtml (raw : String) : String :=
  if raw = "" then ""
  else
    let t1 := stripCRLF raw.data
    let t2 := fenceRepl (t1.length + 1) t1
    let t3 := jsTrimL (linePassF (fun l => (tryH1 l).map (fun rest => ("", rest)))
      (t2.length + 1) true t2)
    let t4 := linePassF (tryHeading "####" "<h4>" "</h4>") (t3.length + 1) true t3
    let t5 := linePassF (tryHeading "###" "<h3>" "</h3>") (t4.length + 1) true t4
    let t6 := linePassF (tryHeading "##" "<h2>" "</h2>") (t5.length + 1) true t5
    let lines := jsSplitOnChar (String.mk t6) '\n' 
    let out := bulletPass lines false
    let merged := String.intercalate "\n" out
    let parts := ((splitBlankAux (merged.data.length + 1) [] merged.data).map jsTrim).filter
      (fun p => p ≠ "")
    String.intercalate "\n" (parts.map (fun chunk =>
      if isBlockChunk chunk then chunk
      else "<p>" ++ String.mk (repl '\n' "<br/>".data chunk.data) ++ "</p>"))

/-- Truthiness of an optional JS number (`0` and `NaN` are falsy). -/
def numTruthy (o : Option (Option Int)) : Bool :=
  match o with
  | some (some n) => n ≠ 0
  | _ => false

/-- The normalized record `agodaSearch` returns (source lines 155-165). -/
structure AgodaRec where
  hotelId : Option Json := none
  hotelName : Option Json := none
  imageURL : Option Json := none
  landingURL : Option Json := none
  dailyRate : Option Json := none
  currency : Option Json := none
  reviewScore : Option Json := none
  starRating : Option Json := none
  raw : Json := .null

/-- Source lines 101-166: `agodaSearch`.  `cityId`/`hotelId` carry the
    present/NaN structure of `body.x ? Number(body.x) : undefined`. -/
def agodaSearch (env : Env) (resp : FetchResp) (cityId hotelId : Option (Option Int))
    (checkInDate checkOutDate : Json) : Except JsError AgodaRec × List Call :=
  let need := missingEnv env ["AGODA_SITE_ID", "AGODA_API_KEY"]
  if need ≠ [] then
    (.error ⟨"Missing env vars: " ++ String.intercalate ", " need, none⟩, [])
  else
    let criteriaBase : List (String × Json) :=
      [("additional", .obj
        [("currency", .str "USD"), ("discountOnly", .bool false),
         ("language", .str "en-us"), ("maxResult", .num 10),
         ("minimumReviewScore", .num 0), ("minimumStarRating", .num 0),
         ("occupancy", .obj [("numberOfAdult", .num 2), ("numberOfChildren", .num 0)]),
         ("sortBy", .str "Recommended")]),
       ("checkInDate", checkInDate), ("checkOutDate", checkOutDate)]
    if ¬ numTruthy hotelId && ¬ numTruthy cityId then
      (.error ⟨"Agoda requires cityId or hotelId", none⟩, [])
    else
      let _payload : Json := .obj [("criteria", .obj (criteriaBase ++
        (if numTruthy hotelId then
          [("hotelId", Json.arr [jsNumJson (hotelId.getD none)])]
         else [("cityId", jsNumJson (cityId.getD none))])))]
      let data : Json := resp.json.getD (.obj [])
      if !resp.ok then
        (.error ⟨"Agoda API failed: " ++ toString resp.status ++ " " ++ jsonStringify data,
          none⟩, [.agodaLookup])
      else
        let firstO :=
          match jget data "results" with
          | some r => jidx r 0
          | none => none
        let landing :=
          match firstO with
          | some f => jget f "landingURL"
          | none => none
        if ¬ jsTruthyO landing then
          (.error ⟨"Agoda returned no landingURL", none⟩, [.agodaLookup])
        else
          let first := firstO.getD .null
          (.ok
            { hotelId := jget first "hotelId", hotelName := jget first "hotelName",
              imageURL := jget first "imageURL", landingURL := jget first "landingURL",
              dailyRate := jget first "dailyRate", currency := jget first "currency",
              reviewScore := jget first "reviewScore", starRating := jget first "starRating",
              raw := first }, [.agodaLookup])

/-- Stringification `String(v)` of a possibly-undefined value
    (`undefined` prints as `"undefined"` in a template literal). -/
def strU (o : Option Json) : String :=
  match o with
  | some v => jsToString v
  | none => "undefined"

/-- Source lines 169-172: `wpAuthHeader`. -/
def wpAuthHeader (env : Env) : String :=
  "Basic " ++ btoaUtf8 ((env.WP_USERNAME.getD "undefined") ++ ":" ++
    (env.WP_APP_PASSWORD.getD "undefined"))

/-- Source lines 175-192: `ensureCategoryId` (category search, then creation). -/
def ensureCategoryId (searchResp createResp : FetchResp) (name : String) :
    Option Json × List Call :=
  if jsTrim name = "" then (none, [])
  else
    let list : Json := searchResp.json.getD (.arr [])
    let found :=
      match list with
      | .arr xs => xs.find? (fun c =>
          jsLower (strU (jget c "name")) == jsLower name)
      | _ => none
    match found with
    | some f =>
        if jsTruthyO (jget f "id") then ((jget f "id"), [.categorySearch])
        else
          let created : Json := createResp.json.getD (.obj [])
          if !createResp.ok then (none, [.categorySearch, .categoryCreate false])
          else
            (match jget created "id" with
             | some .null => none
             | some v => some v
             | none => none, [.categorySearch, .categoryCreate true])
    | none =>
        let created : Json := createResp.json.getD (.obj [])
        if !createResp.ok then (none, [.categorySearch, .categoryCreate false])
        else
          (match jget created "id" with
           | some .null => none
           | some v => some v
           | none => none, [.categorySearch, .categoryCreate true])

/-- Source lines 195-227: `uploadFeaturedImage` (image download, media upload,
    fire-and-forget alt-text update). -/
def uploadFeaturedImage (imgResp mediaResp : FetchResp) (imageUrl : Option Json)
    (alt : String) : Option Json × List Call :=
  if ¬ jsTruthyO imageUrl then (none, [])
  else if !imgResp.ok then (none, [.imageSourceFetch])
  else
    let _fileName := slugify (if alt ≠ "" then alt else "hotel") ++ ".jpg"
    let media : Json := mediaResp.json.getD (.obj [])
    if !mediaResp.ok then (none, [.imageSourceFetch, .mediaUpload false])
    else
      let idO :=
        match jget media "id" with
        | some .null => none
        | some v => some v
        | none => none
      if jsTruthyO (jget media "id") then
        (idO, [.imageSourceFetch, .mediaUpload true, .mediaAltUpdate])
      else (idO, [.imageSourceFetch, .mediaUpload true])

end P0

namespace P0

/-- Arguments of variant P0's `buildHtml` (source lines 230-242); enum-like
    fields keep their raw JSON values (this variant never normalizes them). -/
structure BuildArgs where
  version : Json
  keyword : String
  hotelName : Option Json := none
  landingURL : Option Json := none
  imageId : Option Json := none
  imageAlt : String
  imageUrl : Option Json := none
  dailyRate : Option Json := none
  currency : Option Json := none
  reviewScore : Option Json := none
  starRating : Option Json := none

/-- Source lines 230-350: `buildHtml` of variant P0.  The only random draw is
    the template selection when `version === "random"`. -/
def buildHtml (a : BuildArgs) (g : RngStream) (k : Nat) : String :=
  let v : Json :=
    if isStr a.version "random" then .str (pickR g k ["V1", "V2", "V3", "V4"] "")
    else a.version
  let cta (label : String) : String :=
    "<p><a href=\"" ++ strU a.landingURL ++
    "\" target=\"_blank\" rel=\"sponsored nofollow noopener\">" ++ label ++ "</a></p>"
  let heroImg :=
    if jsTruthyO a.imageUrl then
      "<p><img src=\"" ++ strU a.imageUrl ++ "\" alt=\"" ++ a.imageAlt ++ "\" /></p>"
    else "<p><img src=\"\" alt=\"" ++ a.imageAlt ++ "\" /></p>"
  let quick := "\n<h2>핵심 요약</h2>\n<ul>\n  <li>호텔명: " ++ strU a.hotelName ++
    "</li>\n  <li>평점/성급: " ++ jsToString (jsCoal a.reviewScore (.str "-")) ++ " / " ++
    jsToString (jsCoal a.starRating (.str "-")) ++ "</li>\n  <li>가격(참고): " ++
    jsToString (jsCoal a.dailyRate (.str "-")) ++ " " ++
    jsToString (jsCoal a.currency (.str "")) ++ "</li>\n</ul>\n" ++
    cta "지금 최저가 확인하기" ++ "\n"
  let faqJson : Json := .obj
    [("@context", .str "https://schema.org"), ("@type", .str "FAQPage"),
     ("mainEntity", .arr
       [.obj [("@type", .str "Question"), ("name", .str "체크인/체크아웃 시간은?"),
              ("acceptedAnswer", .obj [("@type", .str "Answer"),
                ("text", .str "호텔 정책에 따라 다르며 예약 페이지에서 최신 정보를 확인하세요.")])],
        .obj [("@type", .str "Question"), ("name", .str "무료 취소가 가능한가요?"),
              ("acceptedAnswer", .obj [("@type", .str "Answer"),
                ("text", .str "요금제에 따라 다릅니다. 예약 단계에서 무료 취소 여부를 확인하세요.")])],
        .obj [("@type", .str "Question"), ("name", .str "조식 포함 옵션이 있나요?"),
              ("acceptedAnswer", .obj [("@type", .str "Answer"),
                ("text", .str "플랜에 따라 제공됩니다. 예약 페이지에서 조식 포함 여부를 확인하세요.")])]])]
  let schema := "<script type=\"application/ld+json\">\n" ++ jsonStringify faqJson ++
    "\n</script>"
  if isStr v "V2" then
    "\n" ++ heroImg ++ "\n" ++ quick ++ "\n<h2>" ++ a.keyword ++ " TOP5</h2>\n<ol>\n  <li>" ++
    strU a.hotelName ++
    " (추천)</li>\n  <li>대안 호텔 A</li>\n  <li>대안 호텔 B</li>\n  <li>대안 호텔 C</li>\n  <li>대안 호텔 D</li>\n</ol>\n" ++
    cta "TOP5 중 1위 호텔 예약하기" ++
    "\n<h2>선택 팁</h2>\n<p>위치/후기/가격을 함께 보고 결정하세요.</p>\n" ++
    cta "객실 요금 다시 확인하기" ++ "\n" ++ schema ++ "\n"
  else if isStr v "V3" then
    "\n" ++ heroImg ++ "\n" ++ quick ++ "\n<h2>위치 & 이동 팁</h2>\n<p>" ++
    strU a.hotelName ++
    " 주변의 교통/동선 기준으로 이동이 편한 구역을 먼저 잡는 것이 핵심입니다.</p>\n" ++
    cta "해당 호텔 예약하기" ++
    "\n<h2>여행 목적별 추천</h2>\n<ul>\n  <li>출장: 조용한 객실/이동 동선</li>\n  <li>커플: 야경/핫플 접근성</li>\n  <li>가족: 객실 크기/편의시설</li>\n</ul>\n" ++
    cta "예약 가능한 날짜 확인하기" ++ "\n" ++ schema ++ "\n"
  else if isStr v "V4" then
    "\n" ++ heroImg ++ "\n" ++ quick ++
    "\n<h2>자주 묻는 질문</h2>\n<h3>체크인/체크아웃은?</h3>\n<p>예약 페이지 기준이 가장 정확합니다.</p>\n<h3>취소/환불 규정은?</h3>\n<p>요금제에 따라 다릅니다.</p>\n<h3>조식 포함이 좋아요?</h3>\n<p>일정이 빠듯하면 포함 옵션이 편합니다.</p>\n" ++
    cta "예약 조건 확인하기" ++ "\n" ++ schema ++ "\n"
  else
    "\n" ++ heroImg ++ "\n" ++ quick ++ "\n<h2>객실 컨디션</h2>\n<p>" ++
    strU a.hotelName ++
    "는 전반적으로 무난한 컨디션을 기대할 수 있습니다. 체크인 전 최신 후기/사진을 확인하세요.</p>\n" ++
    cta "해당 호텔 예약하기" ++
    "\n<h2>부대시설 & 조식</h2>\n<p>조식/피트니스 등은 플랜/시즌에 따라 달라질 수 있습니다.</p>\n" ++
    cta "프로모션 확인하기" ++
    "\n<h2>추천 대상</h2>\n<ul>\n  <li>가성비/동선 중심</li>\n  <li>단기 여행/출장</li>\n</ul>\n" ++
    schema ++ "\n"

/-- The YMD prefix of `toISOString` (source line 390: `toISOString().slice(0, 10)`). -/
def toYMDiso (d : JsDate) : String :=
  (isoRender d).take 10

/-- The world of variant P0: upstream responses for the lookup, the category
    search/create, the image download, the media upload and the publish, plus
    the clock and the random stream.  The fire-and-forget alt-text update's
    response is ignored by the code and carries no parameter. -/
structure World where
  agoda : FetchResp
  catSearch : FetchResp
  catCreate : FetchResp
  imgFetch : FetchResp
  mediaUpload : FetchResp
  wp : FetchResp
  now : JsDate
  rng : RngStream

/-- Source lines 356-468: the `POST` handler of variant P0. -/
def post (env : Env) (req : Req) (w : World) : HResult :=
  if falsyS env.API_KEY || (req.apiKeyHeader.getD "") ≠ (env.API_KEY.getD "") then
    { resp := { status := 401, body := .obj [("error", .str "Unauthorized")] }, calls := [] }
  else
    let need := missingEnv env
      ["WP_URL", "WP_USERNAME", "WP_APP_PASSWORD", "AGODA_SITE_ID", "AGODA_API_KEY"]
    if need ≠ [] then
      { resp := { status := 500,
                  body := .obj [("error", .str "Missing env vars"),
                                ("missing", .arr (need.map Json.str))] },
        calls := [] }
    else
      let b := (req.body.toOption).getD []
      let publishType : Json := jsOrU (bget b "publishType")
        (jsOrU (bget b "status") (.str "draft"))
      let date := bget b "date"
      let version : Json := jsOrU (bget b "version") (.str "random")
      let categoryName := jsTrim (jsToString (jsOrU (bget b "category") (.str "")))
      let cityId : Option (Option Int) :=
        if jsTruthyO (bget b "cityId") then some (jsNumberO ((bget b "cityId").getD .null))
        else none
      let hotelId : Option (Option Int) :=
        if jsTruthyO (bget b "hotelId") then some (jsNumberO ((bget b "hotelId").getD .null))
        else none
      let keyword := jsTrim (jsToString (jsOrU (bget b "keyword")
        (jsOrU (bget b "hotelQuery") (jsOrU (bget b "title") (.str "")))))
      if keyword = "" then
        { resp := { status := 400,
                    body := .obj [("error", .str "keyword(hotelQuery) is required")] },
          calls := [] }
      else
        let checkIn : Json := jsOrU (bget b "checkInDate")
          (.str (toYMDiso (jsAddDays w.now 1)))
        let checkOut : Json := jsOrU (bget b "checkOutDate")
          (.str (toYMDiso (jsAddDays w.now 2)))
        match agodaSearch env w.agoda cityId hotelId checkIn checkOut with
        | (.error e, cs) =>
            { resp := { status := 502,
                        body := .obj [("error", .str "Agoda fetch failed"),
                                      ("detail", .str e.message)] },
              calls := cs }
        | (.ok agoda, cs) =>
          let _wpUrl := stripTrailSlash (env.WP_URL.getD "")
          let catR :=
            if categoryName ≠ "" then ensureCategoryId w.catSearch w.catCreate categoryName
            else (none, [])
          let categoryId := catR.1
          let imageAlt := strU agoda.hotelName ++ " 객실/외관"
          let mediaR := uploadFeaturedImage w.imgFetch w.mediaUpload agoda.imageURL imageAlt
          let featuredMediaId := mediaR.1
          let html := buildHtml
            { version := version, keyword := keyword, hotelName := agoda.hotelName,
              landingURL := agoda.landingURL, imageAlt := imageAlt,
              imageUrl := agoda.imageURL, dailyRate := agoda.dailyRate,
              currency := agoda.currency, reviewScore := agoda.reviewScore,
              starRating := agoda.starRating } w.rng 0
          let title : Json := jsOrU (bget b "title")
            (.str (keyword ++ " | " ++ strU agoda.hotelName))
          let slug :=
            if jsTruthyO (bget b "slug") then jsToString ((bget b "slug").getD .null)
            else slugify (strU agoda.hotelName)
          let wpPayload : Json := .obj
            ([("title", title), ("content", .str (prepareWpHtml html)),
              ("status", publishType), ("slug", .str slug)] ++
             (if isStr publishType "future" && jsTruthyO date then
                [("date", date.getD .null)]
              else []) ++
             (if jsTruthyO categoryId then
                [("categories", Json.arr [categoryId.getD .null])]
              else []) ++
             (if jsTruthyO featuredMediaId then
                [("featured_media", featuredMediaId.getD .null)]
              else []))
          let data : Json := w.wp.json.getD (.obj [])
          if !w.wp.ok then
            { resp := { status := 502,
                        body := .obj [("error", .str "WP publish failed"),
                                      ("status", .num w.wp.status), ("data", data)] },
              calls := cs ++ catR.2 ++ mediaR.2 ++ [.wpPublish false],
              wpSent := some wpPayload }
          else
            let okBody : Json := .obj
              ([("ok", .bool true)] ++
               (match jget data "id" with
                | some v => [("postId", v)]
                | none => []) ++
               (match jget data "link" with
                | some v => [("link", v)]
                | none => []) ++
               (match jget data "status" with
                | some v => [("status", v)]
                | none => []) ++
               [("used", .obj
                 [("version", version), ("slug", .str slug),
                  ("categoryId", categoryId.getD .null),
                  ("featuredMediaId", featuredMediaId.getD .null),
                  ("agoda", .obj
                    ((match agoda.hotelId with
                      | some v => [("hotelId", v)]
                      | none => []) ++
                     (match agoda.landingURL with
                      | some v => [("landingURL", v)]
                      | none => []) ++
                     (match agoda.imageURL with
                      | some v => [("imageURL", v)]
                      | none => [])))])])
            { resp := { status := 200, body := okBody },
              calls := cs ++ catR.2 ++ mediaR.2 ++ [.wpPublish true],
              wpSent := some wpPayload }

end P0

/-! ## Definitions for the analysis -/

/-- Single-pass view of `RA.escapeHtml`: what one character contributes. -/
def escChar (a : Char) : List Char :=
  if a = '&' then "&amp;".data
  else if a = '<' then "&lt;".data
  else if a = '>' then "&gt;".data
  else if a = '"' then "&quot;".data
  else if a = '\'' then "&#039;".data
  else [a]

/-- The five-stage replacement chain of `RA.escapeHtml`, on character lists. -/
def escChain (l : List Char) : List Char :=
  repl '\'' "&#039;".data
    (repl '"' "&quot;".data
      (repl '>' "&gt;".data
        (repl '<' "&lt;".data
          (repl '&' "&amp;".data l))))

/-- The five entities `RA.escapeHtml` emits. -/
def entities : List (List Char) :=
  ["&amp;".data, "&lt;".data, "&gt;".data, "&quot;".data, "&#039;".data]

/-- Well-formed escaped output: a concatenation of safe characters and whole
    entities. -/
inductive EscTok : List Char → Prop where
  | nil : EscTok []
  | safe (c : Char) (t : List Char) :
      c ≠ '&' → c ≠ '<' → c ≠ '>' → c ≠ '"' → c ≠ '\'' →
      EscTok t → EscTok (c :: t)
  | ent (e : List Char) (t : List Char) :
      e ∈ entities → EscTok t → EscTok (e ++ t)

/-- A failed fetch response used to instantiate unused oracle slots. -/
def dummyResp : FetchResp :=
  { ok := false, status := 0 }

/-- A concrete clock value for witnesses. -/
def dummyDate : JsDate :=
  { year := 2026, month := 10, day := 12 }

/-- A concrete RA world for witnesses. -/
def wRA0 : RA.World :=
  { agoda := dummyResp, wp := dummyResp }

/-- A concrete RB world for witnesses. -/
def wRB0 : RB.World :=
  { parseHid := fun _ => none, nfkd := fun s => s, scrape := fun _ => dummyResp,
    agoda := dummyResp, wp := dummyResp, now := dummyDate, rng := fun _ => 0 }

/-- A concrete P0 world for witnesses. -/
def wP00 : P0.World :=
  { agoda := dummyResp, catSearch := dummyResp, catCreate := dummyResp,
    imgFetch := dummyResp, mediaUpload := dummyResp, wp := dummyResp,
    now := dummyDate, rng := fun _ => 0 }

/-- A concrete P1 world for witnesses. -/
def wP10 : P1.World :=
  { parseHid := fun _ => none, sizeUrl := fun _ _ => none, wp := dummyResp,
    now := dummyDate }

/-- An environment with only the inbound API key configured. -/
def envA : Env :=
  { API_KEY := some "secret" }

/-- An environment with the inbound key and a well-formed Agoda credential. -/
def envB : Env :=
  { API_KEY := some "secret", AGODA_AUTH := some "1:2" }

/-- An authenticated request with an empty JSON body. -/
def reqB : Req :=
  { apiKeyHeader := some "secret" }

namespace P0

/-- The keyword P0's handler computes from `keyword`/`hotelQuery`/`title`. -/
def keywordOf (b : Body) : String :=
  jsTrim (jsToString (jsOrU (bget b "keyword")
    (jsOrU (bget b "hotelQuery") (jsOrU (bget b "title") (.str "")))))

/-- The `hotelId` lookup parameter P0's handler computes. -/
def hotelIdOf (b : Body) : Option (Option Int) :=
  if jsTruthyO (bget b "hotelId") then some (jsNumberO ((bget b "hotelId").getD .null))
  else none

/-- The `cityId` lookup parameter P0's handler computes. -/
def cityIdOf (b : Body) : Option (Option Int) :=
  if jsTruthyO (bget b "cityId") then some (jsNumberO ((bget b "cityId").getD .null))
  else none

end P0

/-- A fully configured environment. -/
def envC : Env :=
  { API_KEY := some "secret", WP_URL := some "https://w.example", WP_USERNAME := some "u",
    WP_APP_PASSWORD := some "p", AGODA_SITE_ID := some "1", AGODA_API_KEY := some "kk" }

/-- A request body naming a hotel id and a keyword. -/
def bodyC : Body :=
  [("hotelId", Json.num 5), ("keyword", Json.str "hotel x")]

/-- An authenticated request carrying `bodyC`. -/
def reqC : Req :=
  { apiKeyHeader := some "secret", body := .ok bodyC }

/-- An RA world whose hotel lookup fails with HTTP 500. -/
def wRAF : RA.World :=
  { agoda := { ok := false, status := 500, text := "boom" }, wp := dummyResp }

/-- An RA world whose hotel lookup succeeds with an empty result set. -/
def wRAE : RA.World :=
  { agoda := { ok := true, status := 200, text := "\x7b\x7d", json := some (.obj []) },
    wp := dummyResp }

/-- A P0 world whose hotel lookup fails with HTTP 500. -/
def wP0F : P0.World :=
  { wP00 with
    agoda := { ok := false, status := 500, text := "err",
               json := some (.obj [("m", .str "e")]) } }

/-- A P0 world with a successful lookup (one result with a landing URL and no
    image) and a successful publish. -/
def wP0G : P0.World :=
  { wP00 with
    agoda := { ok := true, status := 200, text := "x",
               json := some (.obj [("results", .arr [.obj
                 [("landingURL", .str "https://a.example"), ("hotelName", .str "H")]])]) },
    wp := { ok := true, status := 201, text := "y", json := some (.obj [("id", .num 7)]) } }

/-- A request body with an unrecognized `publishType`. -/
def bodyD : Body :=
  [("hotelId", Json.num 5), ("keyword", Json.str "k"), ("publishType", Json.str "banana")]

/-- The request carrying `bodyD`. -/
def reqD : Req :=
  { apiKeyHeader := some "secret", body := .ok bodyD }

/-- A request body with `publishType` and `status` omitted. -/
def bodyE : Body :=
  [("hotelId", Json.num 5), ("keyword", Json.str "k")]

/-- The request carrying `bodyE`. -/
def reqE : Req :=
  { apiKeyHeader := some "secret", body := .ok bodyE }

/-- Concrete publish parameters for the RB wire-format witness. -/
def pD : RB.WpParams :=
  { title := "t", content := "c", status := .draft, category := some 1 }

/-- Concrete RB builder arguments for the randomness analysis. -/
def cArgs5 : RB.BuildArgs :=
  { hotelName := "h", affiliateUrl := "", keyword := "k" }

/-- Concrete P0 builder arguments with a fixed (non-random) version. -/
def aP0V1 : P0.BuildArgs :=
  { version := Json.str "V1", keyword := "k", imageAlt := "a" }

/-- A request body asking for a scheduled publish without any date. -/
def bodyF : Body :=
  [("hotelId", Json.num 5), ("keyword", Json.str "k"), ("publishType", Json.str "future")]

/-- The request carrying `bodyF`. -/
def reqF : Req :=
  { apiKeyHeader := some "secret", body := .ok bodyF }

/-- Concrete RB publish parameters scheduling without a date. -/
def pF : RB.WpParams :=
  { title := "t", content := "c", status := .future, category := some 1 }

/-- Concrete P1 publish parameters scheduling without a date. -/
def qF : P1.WpParams :=
  { title := "t", content := "c", status := .future, category := some 1 }

/-- An RA world where both the lookup and the publish succeed. -/
def wRAS : RA.World :=
  { agoda := { ok := true, status := 200, text := "r",
               json := some (.obj [("results", .arr [.obj [("hotelId", .num 5)]])]) },
    wp := { ok := true, status := 201, text := "w", json := some (.obj [("id", .num 1)]) } }

/-- A request body with a category name alongside the hotel id and keyword. -/
def bodyG : Body :=
  [("hotelId", Json.num 5), ("keyword", Json.str "k"), ("category", Json.str "c")]

/-- The request carrying `bodyG`. -/
def reqG : Req :=
  { apiKeyHeader := some "secret", body := .ok bodyG }

/-- A P0 world where the category search misses, the category creation, image
    download and media upload all succeed, and the final publish fails. -/
def wP0H : P0.World :=
  { wP00 with
    agoda := { ok := true, status := 200, text := "x",
               json := some (.obj [("results", .arr [.obj
                 [("landingURL", .str "https://a.example"), ("hotelName", .str "H"),
                  ("imageURL", .str "https://img.example/i.jpg")]])]) },
    catSearch := { ok := true, status := 200, text := "s", json := some (.arr []) },
    catCreate := { ok := true, status := 201, text := "c", json := some (.obj [("id", .num 3)]) },
    imgFetch := { ok := true, status := 200, text := "i" },
    mediaUpload := { ok := true, status := 201, text := "m", json := some (.obj [("id", .num 9)]) },
    wp := { ok := false, status := 500, text := "boom", json := some (.obj [("err", .str "x")]) } }

/-- The full environment with the affiliate site id removed. -/
def envD : Env :=
  { envC with AGODA_SITE_ID := none }

/-- The full environment with the blog base URL removed. -/
def envE : Env :=
  { envC with WP_URL := none }

/-- An environment with no inbound API key configured at all. -/
def envF : Env :=
  { envC with API_KEY := none }

/-- A request body naming a city id and a keyword (no hotel id). -/
def bodyH : Body :=
  [("cityId", Json.num 7), ("keyword", Json.str "k")]

/-- The request carrying `bodyH`. -/
def reqH : Req :=
  { apiKeyHeader := some "secret", body := .ok bodyH }

/-- A P0 world whose hotel lookup succeeds with an empty result set. -/
def wP0E : P0.World :=
  { wP00 with
    agoda := { ok := true, status := 200, text := "x",
               json := some (.obj [("results", .arr [])]) } }

/-- A concrete RA hotel record for the determinism witness. -/
def hotelW : RA.Hotel :=
  { name := Json.str "H", address := Json.str "A", description := Json.str "D",
    reviewScore := Json.num 9, imageURL := Json.str "https://img.example/i.jpg" }

/-- Concrete P1 builder arguments for the determinism witness. -/
def pbW : P1.BuildArgs :=
  { version := .V1, keyword := "k", hotelName := "H", affiliateUrl := "https://a.example" }

/-! ## Analysis -/

theorem escapeHtml_data (s : String) : (RA.escapeHtml s).data = escChain s.data := rfl

theorem escChain_nil : escChain [] = [] := rfl

theorem escChain_cons (a : Char) (l : List Char) :
    escChain (a :: l) = escChar a ++ escChain l := by
  by_cases h1 : a = '&'
  · subst h1; simp [escChain, escChar, repl]
  · by_cases h2 : a = '<'
    · subst h2; simp [escChain, escChar, repl]
    · by_cases h3 : a = '>'
      · subst h3; simp [escChain, escChar, repl]
      · by_cases h4 : a = '"'
        · subst h4; simp [escChain, escChar, repl]
        · by_cases h5 : a = '\''
          · subst h5; simp [escChain, escChar, repl]
          · simp [escChain, escChar, repl, h1, h2, h3, h4, h5]

theorem escTok_escChain (l : List Char) : EscTok (escChain l) := by
  induction l with
  | nil => exact EscTok.nil
  | cons a l ih =>
      rw [escChain_cons]
      by_cases h1 : a = '&'
      · subst h1; exact EscTok.ent _ _ (by simp [entities, escChar]) ih
      · by_cases h2 : a = '<'
        · subst h2; exact EscTok.ent _ _ (by simp [entities, escChar]) ih
        · by_cases h3 : a = '>'
          · subst h3; exact EscTok.ent _ _ (by simp [entities, escChar]) ih
          · by_cases h4 : a = '"'
            · subst h4; exact EscTok.ent _ _ (by simp [entities, escChar]) ih
            · by_cases h5 : a = '\''
              · subst h5; exact EscTok.ent _ _ (by simp [entities, escChar]) ih
              · simpa [escChar, h1, h2, h3, h4, h5] using
                  EscTok.safe a (escChain l) h1 h2 h3 h4 h5 ih

theorem escTok_no_specials {m : List Char} (h : EscTok m) :
    ∀ c ∈ m, c ≠ '<' ∧ c ≠ '>' ∧ c ≠ '"' ∧ c ≠ '\'' := by
  induction h with
  | nil => intro c hc; cases hc
  | safe d t hn1 hn2 hn3 hn4 hn5 _ ih =>
      intro c hc
      rcases List.mem_cons.mp hc with rfl | hc
      · exact ⟨hn2, hn3, hn4, hn5⟩
      · exact ih c hc
  | ent e t he _ ih =>
      intro c hc
      rcases List.mem_append.mp hc with hc | hc
      · have : ∀ x ∈ entities, ∀ d ∈ x, d ≠ '<' ∧ d ≠ '>' ∧ d ≠ '"' ∧ d ≠ '\'' := by decide
        exact this e he c hc
      · exact ih c hc

theorem split_no_amp (pre : List Char) (hpre : '&' ∉ pre) :
    ∀ t l r, pre ++ t = l ++ '&' :: r → ∃ l₂, l = pre ++ l₂ ∧ t = l₂ ++ '&' :: r := by
  induction pre with
  | nil => intro t l r h; exact ⟨l, rfl, h⟩
  | cons c p ih =>
      intro t l r h
      cases l with
      | nil =>
          simp only [List.nil_append, List.cons_append, List.cons.injEq] at h
          exact absurd (by rw [← h.1]; exact List.mem_cons_self c p) hpre
      | cons d l₂ =>
          simp only [List.cons_append, List.cons.injEq] at h
          obtain ⟨rfl, h2⟩ := h
          obtain ⟨l₃, hl, ht⟩ := ih (fun hx => hpre (List.mem_cons_of_mem _ hx)) t l₂ r h2
          exact ⟨l₃, by simp [hl], ht⟩

theorem escTok_amp_case (etail t l r : List Char) (hna : '&' ∉ etail)
    (hmem : ('&' :: etail) ∈ entities)
    (ih : ∀ l r, t = l ++ '&' :: r → ∃ e ∈ entities, ∃ t₂, '&' :: r = e ++ t₂)
    (heq : ('&' :: etail) ++ t = l ++ '&' :: r) :
    ∃ e ∈ entities, ∃ t₂, '&' :: r = e ++ t₂ := by
  cases l with
  | nil =>
      simp only [List.nil_append, List.cons_append, List.cons.injEq, true_and] at heq
      exact ⟨'&' :: etail, hmem, t, by simp [heq]⟩
  | cons d l₂ =>
      simp only [List.cons_append, List.cons.injEq] at heq
      obtain ⟨rfl, h2⟩ := heq
      obtain ⟨l₃, _, ht⟩ := split_no_amp etail hna t l₂ r h2
      exact ih l₃ r ht

theorem escTok_amp_entity {m : List Char} (h : EscTok m) :
    ∀ l r, m = l ++ '&' :: r → ∃ e ∈ entities, ∃ t₂, '&' :: r = e ++ t₂ := by
  induction h with
  | nil =>
      intro l r h
      exact absurd h.symm (by simp)
  | safe d t hn1 _ _ _ _ _ ih =>
      intro l r h
      cases l with
      | nil => simp only [List.nil_append, List.cons.injEq] at h; exact absurd h.1 hn1
      | cons x l₂ =>
          simp only [List.cons_append, List.cons.injEq] at h
          exact ih l₂ r h.2
  | ent e t he _ ih =>
      intro l r hsplit
      simp only [entities, List.mem_cons, List.not_mem_nil, or_false] at he
      rcases he with rfl | rfl | rfl | rfl | rfl
      · exact escTok_amp_case "amp;".data t l r (by decide) (by decide) ih hsplit
      · exact escTok_amp_case "lt;".data t l r (by decide) (by decide) ih hsplit
      · exact escTok_amp_case "gt;".data t l r (by decide) (by decide) ih hsplit
      · exact escTok_amp_case "quot;".data t l r (by decide) (by decide) ih hsplit
      · exact escTok_amp_case "#039;".data t l r (by decide) (by decide) ih hsplit

/-- C9: for every input string `s`, `escapeHtml s` contains no literal `<`, `>`,
    `"` or single-quote character, and wherever the output splits as
    `l ++ '&' :: r`, the text from that ampersand on starts with one of the five
    emitted entities (`&amp;` `&lt;` `&gt;` `&quot;` `&#039;`), so interpolating
    the result into HTML text or a quoted attribute cannot open a new tag or
    escape the attribute. -/
theorem c9_escape_html_safe (s : String) :
    (∀ c ∈ (RA.escapeHtml s).data, c ≠ '<' ∧ c ≠ '>' ∧ c ≠ '"' ∧ c ≠ '\'') ∧
    (∀ l r, (RA.escapeHtml s).data = l ++ '&' :: r →
      ∃ e ∈ entities, ∃ t, '&' :: r = e ++ t) := by
  rw [escapeHtml_data]
  exact ⟨escTok_no_specials (escTok_escChain s.data),
         escTok_amp_entity (escTok_escChain s.data)⟩

/-- Witness for C9 at the concrete input `"a&b<c"`: the escaped output is
    `a&amp;b&lt;c`, and the theorem applies at its first ampersand. -/
theorem c9_escape_html_safe_witness :
    ((RA.escapeHtml "a&b<c").data = ['a'] ++ '&' :: "amp;b&lt;c".data) ∧
    (∃ e ∈ entities, ∃ t, '&' :: "amp;b&lt;c".data = e ++ t) :=
  ⟨by decide, (c9_escape_html_safe "a&b<c").2 ['a'] "amp;b&lt;c".data (by decide)⟩

theorem pushUnique_eq_nil_iff (out : List String) (u : String) :
    P1.pushUnique out u = [] ↔ out = [] ∧ jsTrim u = "" := by
  unfold P1.pushUnique
  by_cases h1 : u = ""
  · subst h1
    simp [(by decide : jsTrim "" = "")]
  · rw [if_neg h1]
    by_cases h2 : jsTrim u = ""
    · simp [h2]
    · rw [if_neg h2]
      by_cases h3 : out.contains (jsTrim u) = true
      · rw [if_pos h3]
        constructor
        · intro h; subst h; simp at h3
        · intro h; exact h.1
      · rw [if_neg h3]
        simp [h2]

theorem foldl_pushUnique_nil_iff (l : List String) (acc : List String) :
    l.foldl P1.pushUnique acc = [] ↔ acc = [] ∧ ∀ x ∈ l, jsTrim x = "" := by
  induction l generalizing acc with
  | nil => simp
  | cons x l ih =>
      simp only [List.foldl_cons, ih, pushUnique_eq_nil_iff, List.mem_cons]
      constructor
      · rintro ⟨⟨ha, hx⟩, hrest⟩
        refine ⟨ha, fun y hy => ?_⟩
        rcases hy with rfl | hy
        · exact hx
        · exact hrest y hy
      · rintro ⟨ha, hall⟩
        exact ⟨⟨ha, hall x (Or.inl rfl)⟩, fun y hy => hall y (Or.inr hy)⟩

theorem mem_dropWhile_of_not (p : Char → Bool) {c : Char} (hc : p c = false) :
    ∀ {l : List Char}, c ∈ l → c ∈ l.dropWhile p := by
  intro l
  induction l with
  | nil => intro h; cases h
  | cons a l ih =>
      intro h
      rw [List.dropWhile_cons]
      by_cases ha : p a = true
      · simp only [ha, if_true]
        rcases List.mem_cons.mp h with rfl | h
        · rw [hc] at ha; cases ha
        · exact ih h
      · simp only [Bool.not_eq_true] at ha
        simp only [ha, if_false]
        exact h

theorem jsTrim_ne_empty_of_mem {s : String} {c : Char} (hc : c ∈ s.data)
    (hw : jsIsWs c = false) : jsTrim s ≠ "" := by
  have h1 : c ∈ jsTrimL s.data := by
    unfold jsTrimL
    exact List.mem_reverse.mpr
      (mem_dropWhile_of_not jsIsWs hw
        (List.mem_reverse.mpr (mem_dropWhile_of_not jsIsWs hw hc)))
  intro h
  have h2 : jsTrimL s.data = [] := congrArg String.data h
  rw [h2] at h1
  cases h1

theorem mem_s_sizeReplF (sz : String) :
    ∀ (f : Nat) (l : List Char), 's' ∈ l → 's' ∈ P1.sizeReplF sz f l := by
  intro f
  induction f with
  | zero => intro l h; exact h
  | succ f ih =>
      intro l h
      cases l with
      | nil => cases h
      | cons c r =>
          unfold P1.sizeReplF
          cases hm : P1.trySizeMatch (c :: r) with
          | some after =>
              apply List.mem_append.mpr
              exact Or.inl (by simp [String.data_append])
          | none =>
              rcases List.mem_cons.mp h with rfl | h
              · exact List.mem_cons_self _ _
              · exact List.mem_cons_of_mem _ (ih r h)

theorem containsSub_s (l : List Char) (h : containsSub l "s=".data = true) : 's' ∈ l := by
  induction l with
  | nil => simp [containsSub] at h
  | cons c r ih =>
      rw [containsSub] at h
      simp only [Bool.or_eq_true] at h
      rcases h with h1 | h1
      · have h3 : c = 's' := by
          simp only [startsWithL, Bool.and_eq_true, decide_eq_true_eq] at h1
          exact h1.1
        exact h3 ▸ List.mem_cons_self _ _
      · exact List.mem_cons_of_mem _ (ih h1)

theorem ensureSize_trim_ne (o : SizeUrlOracle)
    (ho : ∀ u sz v, o u sz = some v → jsTrim v ≠ "") (u sz : String) :
    jsTrim (P1.ensureSize o u sz) ≠ "" := by
  unfold P1.ensureSize
  cases hm : o u sz with
  | some v => exact ho u sz v hm
  | none =>
      by_cases hinc : jsIncludes u "s=" = true
      · rw [if_pos hinc]
        exact jsTrim_ne_empty_of_mem
          (mem_s_sizeReplF sz u.data.length u.data (containsSub_s u.data hinc))
          (by decide)
      · rw [if_neg hinc]
        apply jsTrim_ne_empty_of_mem (c := 's') _ (by decide)
        rw [String.data_append, String.data_append, String.data_append]
        apply List.mem_append.mpr
        exact Or.inl (List.mem_append.mpr (Or.inr (by simp [String.data_append])))

theorem imgSize_spec (l : List String) :
    ((if l.length = 1 then l ++ [l.getD 0 "", l.getD 0 ""]
      else if l.length = 2 then l ++ [l.getD 1 ""]
      else if l.length > 3 then l.take 3
      else l).length = 0 ∨
     (if l.length = 1 then l ++ [l.getD 0 "", l.getD 0 ""]
      else if l.length = 2 then l ++ [l.getD 1 ""]
      else if l.length > 3 then l.take 3
      else l).length = 3) ∧
    ((if l.length = 1 then l ++ [l.getD 0 "", l.getD 0 ""]
      else if l.length = 2 then l ++ [l.getD 1 ""]
      else if l.length > 3 then l.take 3
      else l).length = 0 ↔ l = []) := by
  have hlen : l = [] ↔ l.length = 0 := by
    constructor
    · intro h; subst h; rfl
    · intro h; exact List.length_eq_zero.mp h
  by_cases h1 : l.length = 1
  · rw [if_pos h1]
    constructor
    · right; simp [h1]
    · rw [hlen]; simp [h1]
  · rw [if_neg h1]
    by_cases h2 : l.length = 2
    · rw [if_pos h2]
      constructor
      · right; simp [h2]
      · rw [hlen]; simp [h2]
    · rw [if_neg h2]
      by_cases h3 : l.length > 3
      · rw [if_pos h3]
        constructor
        · right; simp only [List.length_take]; omega
        · rw [hlen]; simp only [List.length_take]; omega
      · rw [if_neg h3]
        constructor
        · omega
        · rw [hlen]

theorem buildImageUrls_out1_ne_nil (o : SizeUrlOracle)
    (ho : ∀ u sz v, o u sz = some v → jsTrim v ≠ "") (out0 : List String) (u : String) :
    P1.pushUnique (P1.pushUnique (P1.pushUnique out0 (P1.ensureSize o u "1200x800"))
      (P1.ensureSize o u "1000x750")) (P1.ensureSize o u "800x600") ≠ [] := by
  intro h
  exact ensureSize_trim_ne o ho u "800x600" ((pushUnique_eq_nil_iff _ _).mp h).2

/-- C10 (amended): the length of `buildImageUrls` is always 0 or exactly 3, and
    it is 0 exactly when the single `imageURL` is absent or the empty string and
    every entry of `imageUrls` is empty or whitespace-only.  (A whitespace-only
    single `imageURL` is truthy and still yields 3 entries, which is what the
    original biconditional missed.)  The oracle hypothesis states the one fact
    used about WHATWG URL serialization: a successful `toString` is never
    blank. -/
theorem c10_amended (o : SizeUrlOracle)
    (ho : ∀ u sz v, o u sz = some v → jsTrim v ≠ "")
    (imageURL : Option String) (imageUrls : Option (List String)) :
    ((P1.buildImageUrls o imageURL imageUrls).length = 0 ∨
     (P1.buildImageUrls o imageURL imageUrls).length = 3) ∧
    ((P1.buildImageUrls o imageURL imageUrls).length = 0 ↔
      ((imageURL = none ∨ imageURL = some "") ∧
       ∀ x ∈ imageUrls.getD [], jsTrim x = "")) := by
  unfold P1.buildImageUrls
  cases imageUrls with
  | none =>
      cases imageURL with
      | none =>
          refine ⟨(imgSize_spec _).1, (imgSize_spec _).2.trans ?_⟩
          simp
      | some u =>
          by_cases hu : u = ""
          · subst hu
            simp only [ne_eq, not_true_eq_false, if_false]
            refine ⟨(imgSize_spec _).1, (imgSize_spec _).2.trans ?_⟩
            simp
          · simp only [ne_eq, hu, not_false_eq_true, if_true]
            refine ⟨(imgSize_spec _).1, (imgSize_spec _).2.trans ?_⟩
            have hne := buildImageUrls_out1_ne_nil o ho [] u
            constructor
            · intro h; exact absurd h hne
            · rintro ⟨h1 | h1, -⟩
              · cases h1
              · exact absurd (Option.some.injEq _ _ ▸ h1) (by simpa using hu)
  | some ls =>
      cases imageURL with
      | none =>
          refine ⟨(imgSize_spec _).1, (imgSize_spec _).2.trans ?_⟩
          rw [foldl_pushUnique_nil_iff]
          simp
      | some u =>
          by_cases hu : u = ""
          · subst hu
            simp only [ne_eq, not_true_eq_false, if_false]
            refine ⟨(imgSize_spec _).1, (imgSize_spec _).2.trans ?_⟩
            rw [foldl_pushUnique_nil_iff]
            simp
          · simp only [ne_eq, hu, not_false_eq_true, if_true]
            refine ⟨(imgSize_spec _).1, (imgSize_spec _).2.trans ?_⟩
            have hne := buildImageUrls_out1_ne_nil o ho (ls.foldl P1.pushUnique []) u
            constructor
            · intro h; exact absurd h hne
            · rintro ⟨h1 | h1, -⟩
              · cases h1
              · exact absurd (Option.some.injEq _ _ ▸ h1) (by simpa using hu)

/-- C10 (counterexample): with no single image URL and the list `["   "]`,
    `buildImageUrls` returns the empty list even though a non-empty URL string
    was supplied — refuting "length 0 exactly when no non-empty URL was
    supplied", which predicts a 3-element result here. -/
theorem c10_counterexample :
    (P1.buildImageUrls (fun _ _ => none) none (some ["   "])).length = 0 ∧
    "   " ∈ ["   "] ∧ "   " ≠ "" := by
  refine ⟨?_, by decide, by decide⟩
  rfl

/-- Witness for the amended C10 at a concrete oracle and inputs. -/
theorem c10_amended_witness :
    ((P1.buildImageUrls (fun _ _ => none) (some "x") none).length = 0 ∨
     (P1.buildImageUrls (fun _ _ => none) (some "x") none).length = 3) ∧
    ((P1.buildImageUrls (fun _ _ => none) (some "x") none).length = 0 ↔
      (((some "x" : Option String) = none ∨ (some "x" : Option String) = some "") ∧
       ∀ x ∈ (none : Option (List String)).getD [], jsTrim x = "")) :=
  c10_amended (fun _ _ => none) (fun _ _ _ h => by cases h) (some "x") none

/-- C1: for every inbound POST whose `x-api-key` header is absent or differs
    from the configured (non-empty) API key, each of the four handlers returns
    HTTP 401 and issues no outbound call (no hotel lookup, no scrape, no
    publish). -/
theorem c1_auth_reject (env : Env) (req : Req) (k : String)
    (wRA : RA.World) (wRB : RB.World) (wP0 : P0.World) (wP1 : P1.World)
    (henv : env.API_KEY = some k) (hk : k ≠ "")
    (hbad : req.apiKeyHeader = none ∨ ∃ h, req.apiKeyHeader = some h ∧ h ≠ k) :
    ((RA.post env req wRA).resp.status = 401 ∧ (RA.post env req wRA).calls = []) ∧
    ((RB.post env req wRB).resp.status = 401 ∧ (RB.post env req wRB).calls = []) ∧
    ((P0.post env req wP0).resp.status = 401 ∧ (P0.post env req wP0).calls = []) ∧
    ((P1.post env req wP1).resp.status = 401 ∧ (P1.post env req wP1).calls = []) := by
  rcases hbad with hh | ⟨h, hh, hne⟩
  · refine ⟨?_, ?_, ?_, ?_⟩
    · simp [RA.post, falsyS, hh]
    · simp [RB.post, RB.jsonError, falsyS, henv, hk, hh]
    · simp [P0.post, falsyS, henv, hk, hh, Ne.symm hk]
    · simp [P1.post, P1.jsonError, henv, hk, Ne.symm hk, hh]
  · by_cases hemp : h = ""
    · subst hemp
      refine ⟨?_, ?_, ?_, ?_⟩
      · simp [RA.post, falsyS, hh]
      · simp [RB.post, RB.jsonError, falsyS, henv, hk, hh]
      · simp [P0.post, falsyS, henv, hk, hh, hne]
      · simp [P1.post, P1.jsonError, henv, hk, hh, hne]
    · refine ⟨?_, ?_, ?_, ?_⟩
      · simp [RA.post, falsyS, hh, hemp, henv, hne]
      · simp [RB.post, RB.jsonError, falsyS, henv, hk, hh, hemp, hne]
      · simp [P0.post, falsyS, henv, hk, hh, hne]
      · simp [P1.post, P1.jsonError, henv, hk, hh, hne]

/-- Witness for C1: a request with no `x-api-key` header against an environment
    whose key is `"secret"`. -/
theorem c1_auth_reject_witness :
    ((RA.post envA {} wRA0).resp.status = 401 ∧ (RA.post envA {} wRA0).calls = []) ∧
    ((RB.post envA {} wRB0).resp.status = 401 ∧ (RB.post envA {} wRB0).calls = []) ∧
    ((P0.post envA {} wP00).resp.status = 401 ∧ (P0.post envA {} wP00).calls = []) ∧
    ((P1.post envA {} wP10).resp.status = 401 ∧ (P1.post envA {} wP10).calls = []) :=
  c1_auth_reject envA {} "secret" wRA0 wRB0 wP00 wP10 rfl (by decide) (Or.inl rfl)

/-- C2: an authenticated request whose parsed body contains neither `keyword`
    nor any hotel identifier (`hotelId`, `hotelUrl`) gets HTTP 400 from each of
    the three handlers that implement this check (RA, RB, P1), with no outbound
    call.  For RB the Agoda credential must parse, otherwise its earlier
    configuration guard answers first (still without any outbound call). -/
theorem c2_missing_inputs (env : Env) (req : Req) (k : String) (b : Body)
    (wRA : RA.World) (wRB : RB.World) (wP1 : P1.World)
    (henv : env.API_KEY = some k) (hk : k ≠ "") (hh : req.apiKeyHeader = some k)
    (hb : req.body = .ok b)
    (hkw : bget b "keyword" = none) (hhid : bget b "hotelId" = none)
    (hurl : bget b "hotelUrl" = none)
    (hauth : ∃ a, RB.getAgodaAuthFromEnv env = Except.ok a) :
    ((RA.post env req wRA).resp.status = 400 ∧ (RA.post env req wRA).calls = []) ∧
    ((RB.post env req wRB).resp.status = 400 ∧ (RB.post env req wRB).calls = []) ∧
    ((P1.post env req wP1).resp.status = 400 ∧ (P1.post env req wP1).calls = []) := by
  obtain ⟨a, ha⟩ := hauth
  simp only [bget] at hkw hhid hurl
  refine ⟨?_, ?_, ?_⟩
  · simp [RA.post, falsyS, hh, hk, henv, hb, bget, hhid, jsTruthy]
  · have hkey : falsyS env.API_KEY = false := by simp [falsyS, henv, hk]
    have hcond : (falsyS req.apiKeyHeader || req.apiKeyHeader != env.API_KEY) = false := by
      simp [falsyS, hh, henv, hk]
    simp only [RB.post, hkey, hcond, Bool.false_eq_true, if_false, hb,
      Except.toOption, Option.getD, bget, hkw, hurl, hhid, safeStr, ha]
    split
    · simp [RB.jsonError]
    · simp [RB.extractHotelIdFromUrl, RB.jsonError, safeStr]
  · simp [P1.post, henv, hk, hh, hb, Except.toOption, Option.getD, bget, hkw,
      jsOrU, jsToString, (by decide : jsTrim "" = ""), P1.jsonError]

/-- Witness for C2: an authenticated request whose body is the empty object. -/
theorem c2_missing_inputs_witness :
    ((RA.post envB reqB wRA0).resp.status = 400 ∧ (RA.post envB reqB wRA0).calls = []) ∧
    ((RB.post envB reqB wRB0).resp.status = 400 ∧ (RB.post envB reqB wRB0).calls = []) ∧
    ((P1.post envB reqB wP10).resp.status = 400 ∧ (P1.post envB reqB wP10).calls = []) :=
  c2_missing_inputs envB reqB "secret" [] wRA0 wRB0 wP10 rfl (by decide) rfl rfl
    rfl rfl rfl ⟨⟨"1", "2", "1:2"⟩, by rfl⟩

/-- C3: when the hotel lookup fails — a non-success HTTP status or an empty
    result set, on a hotel-id or a city-id search — the cited handlers answer
    with an error status in {502, 404} whose body's `detail` field carries the
    upstream diagnostic (the parsed upstream body, its raw text, or the thrown
    message embedding the upstream status and body, or the no-result message),
    and the publish call is never attempted: the trace is exactly the single
    lookup call. -/
theorem c3_lookup_failure (env : Env) (req req2 : Req) (k : String) (b b2 : Body)
    (wRA wRA2 : RA.World) (wP0 wP0E : P0.World)
    (henv : env.API_KEY = some k) (hk : k ≠ "") (hh : req.apiKeyHeader = some k)
    (hb : req.body = .ok b)
    (hhid : jsTruthy ((bget b "hotelId").getD .null) = true)
    (hh2 : req2.apiKeyHeader = some k) (hb2 : req2.body = .ok b2)
    (hsite : falsyS env.AGODA_SITE_ID = false)
    (hakey : falsyS env.AGODA_API_KEY = false) :
    (wRA.agoda.ok = false →
      ((RA.post env req wRA).resp.status = 502 ∨ (RA.post env req wRA).resp.status = 404) ∧
      jget (RA.post env req wRA).resp.body "detail" =
        some (coalNull
          (if wRA.agoda.text = "" then Json.null else wRA.agoda.json.getD Json.null)
          (.str wRA.agoda.text)) ∧
      (RA.post env req wRA).calls = [Call.agodaLookup]) ∧
    (wRA2.agoda.ok = true →
      (∀ x xs, jget (if wRA2.agoda.text = "" then Json.null else wRA2.agoda.json.getD Json.null)
        "results" ≠ some (.arr (x :: xs))) →
      ((RA.post env req wRA2).resp.status = 502 ∨ (RA.post env req wRA2).resp.status = 404) ∧
      jget (RA.post env req wRA2).resp.body "detail" =
        some (if wRA2.agoda.text = "" then Json.null else wRA2.agoda.json.getD Json.null) ∧
      (RA.post env req wRA2).calls = [Call.agodaLookup]) ∧
    (P0.missingEnv env
        ["WP_URL", "WP_USERNAME", "WP_APP_PASSWORD", "AGODA_SITE_ID", "AGODA_API_KEY"] = [] →
      P0.keywordOf b ≠ "" →
      P0.numTruthy (P0.hotelIdOf b) = true →
      wP0.agoda.ok = false →
      ((P0.post env req wP0).resp.status = 502 ∨ (P0.post env req wP0).resp.status = 404) ∧
      jget (P0.post env req wP0).resp.body "detail" =
        some (.str ("Agoda API failed: " ++ toString wP0.agoda.status ++ " " ++
          jsonStringify (wP0.agoda.json.getD (.obj [])))) ∧
      (P0.post env req wP0).calls = [Call.agodaLookup]) ∧
    (P0.missingEnv env
        ["WP_URL", "WP_USERNAME", "WP_APP_PASSWORD", "AGODA_SITE_ID", "AGODA_API_KEY"] = [] →
      P0.keywordOf b2 ≠ "" →
      P0.numTruthy (P0.cityIdOf b2) = true →
      bget b2 "hotelId" = none →
      wP0E.agoda.ok = true →
      jget (wP0E.agoda.json.getD (.obj [])) "results" = some (.arr []) →
      ((P0.post env req2 wP0E).resp.status = 502 ∨ (P0.post env req2 wP0E).resp.status = 404) ∧
      jget (P0.post env req2 wP0E).resp.body "detail" =
        some (.str "Agoda returned no landingURL") ∧
      (P0.post env req2 wP0E).calls = [Call.agodaLookup]) := by
  have hsite2 : ¬ (env.AGODA_SITE_ID.getD "" = "") := by simpa [falsyS] using hsite
  have hakey2 : ¬ (env.AGODA_API_KEY.getD "" = "") := by simpa [falsyS] using hakey
  refine ⟨?_, ?_, ?_, ?_⟩
  · intro hfail
    simp [RA.post, RA.agodaGetHotelById, RA.catchResp, falsyS, hh, henv, hk, hb, hhid,
      hsite2, hakey2, hfail, jget, getF]
  · intro hok hres
    have hhd : RA.agodaGetHotelById env wRA2.agoda ((bget b "hotelId").getD Json.null) =
        (Except.error ⟨"Agoda fetch failed: no results",
          some (if wRA2.agoda.text = "" then Json.null else wRA2.agoda.json.getD Json.null)⟩,
         [Call.agodaLookup]) := by
      rcases hj : jget (if wRA2.agoda.text = "" then Json.null else wRA2.agoda.json.getD Json.null)
          "results" with _ | j
      · simp [RA.agodaGetHotelById, falsyS, hsite2, hakey2, hok, hj]
      · cases j with
        | arr xs =>
            cases xs with
            | nil => simp [RA.agodaGetHotelById, falsyS, hsite2, hakey2, hok, hj]
            | cons x xs => exact absurd hj (hres x xs)
        | null => simp [RA.agodaGetHotelById, falsyS, hsite2, hakey2, hok, hj]
        | bool v => simp [RA.agodaGetHotelById, falsyS, hsite2, hakey2, hok, hj]
        | num v => simp [RA.agodaGetHotelById, falsyS, hsite2, hakey2, hok, hj]
        | str v => simp [RA.agodaGetHotelById, falsyS, hsite2, hakey2, hok, hj]
        | obj v => simp [RA.agodaGetHotelById, falsyS, hsite2, hakey2, hok, hj]
    simp [RA.post, RA.catchResp, falsyS, hh, henv, hk, hb, hhid, hhd, jget, getF]
  · intro h5 hkw hid hfail
    have h2 : P0.missingEnv env ["AGODA_SITE_ID", "AGODA_API_KEY"] = [] := by
      simp only [P0.missingEnv, List.filter_eq_nil_iff] at h5 ⊢
      intro a ha
      apply h5
      simp only [List.mem_cons] at ha ⊢
      tauto
    simp only [P0.keywordOf] at hkw
    simp only [P0.hotelIdOf] at hid
    simp only [Option.getD] at hid
    simp [P0.post, P0.agodaSearch, falsyS, hh, henv, hk, hb, Except.toOption,
      Option.getD, h5, hkw, hid, h2, hfail, jget, getF]
  · intro h5 hkw2 hcid hnoh hok hres
    have h2 : P0.missingEnv env ["AGODA_SITE_ID", "AGODA_API_KEY"] = [] := by
      simp only [P0.missingEnv, List.filter_eq_nil_iff] at h5 ⊢
      intro a ha
      apply h5
      simp only [List.mem_cons] at ha ⊢
      tauto
    simp only [P0.keywordOf] at hkw2
    simp only [P0.cityIdOf] at hcid
    have hht : jsTruthyO (bget b2 "hotelId") = false := by rw [hnoh]; rfl
    have hn0 : P0.numTruthy none = false := rfl
    have hjn : jsTruthyO none = false := rfl
    cases hjt : jsTruthyO (bget b2 "cityId") with
    | false =>
        rw [hjt] at hcid
        simp [P0.numTruthy] at hcid
    | true =>
        rw [hjt] at hcid
        simp only [if_pos] at hcid
        have hsearch : P0.agodaSearch env wP0E.agoda
            (if jsTruthyO (bget b2 "cityId") then
              some (jsNumberO ((bget b2 "cityId").getD Json.null)) else none)
            (if jsTruthyO (bget b2 "hotelId") then
              some (jsNumberO ((bget b2 "hotelId").getD Json.null)) else none)
            (jsOrU (bget b2 "checkInDate") (.str (P0.toYMDiso (jsAddDays wP0E.now 1))))
            (jsOrU (bget b2 "checkOutDate") (.str (P0.toYMDiso (jsAddDays wP0E.now 2)))) =
            (Except.error ⟨"Agoda returned no landingURL", none⟩, [Call.agodaLookup]) := by
          simp [P0.agodaSearch, h2, hjt, hcid, hht, hn0, hjn, hok, hres, jidx]
        simp only [Option.getD] at hsearch
        simp [P0.post, falsyS, hh2, henv, hk, hb2, Except.toOption,
          Option.getD, h5, hkw2, hsearch, jget, getF]

/-- Witness for C3: a failing lookup (HTTP 500), an empty result set in RA, a
    failing P0 hotel-id lookup, and an empty result set on a P0 city-id lookup,
    all at concrete worlds. -/
theorem c3_lookup_failure_witness :
    ((RA.post envC reqC wRAF).resp.status = 502 ∨ (RA.post envC reqC wRAF).resp.status = 404) ∧
    (RA.post envC reqC wRAF).calls = [Call.agodaLookup] ∧
    ((RA.post envC reqC wRAE).resp.status = 502 ∨ (RA.post envC reqC wRAE).resp.status = 404) ∧
    (RA.post envC reqC wRAE).calls = [Call.agodaLookup] ∧
    ((P0.post envC reqC wP0F).resp.status = 502 ∨ (P0.post envC reqC wP0F).resp.status = 404) ∧
    (P0.post envC reqC wP0F).calls = [Call.agodaLookup] ∧
    ((P0.post envC reqH wP0E).resp.status = 502 ∨ (P0.post envC reqH wP0E).resp.status = 404) ∧
    jget (P0.post envC reqH wP0E).resp.body "detail" =
      some (.str "Agoda returned no landingURL") ∧
    (P0.post envC reqH wP0E).calls = [Call.agodaLookup] := by
  have hres : ∀ x xs,
      jget (if wRAE.agoda.text = "" then Json.null else wRAE.agoda.json.getD Json.null)
        "results" ≠ some (.arr (x :: xs)) := by
    intro x xs hx
    simp [wRAE, jget, getF] at hx
  have h := c3_lookup_failure envC reqC reqH "secret" bodyC bodyH wRAF wRAE wP0F wP0E
    rfl (by decide) rfl rfl (by decide) rfl rfl (by rfl) (by rfl)
  exact ⟨(h.1 rfl).1, (h.1 rfl).2.2,
         (h.2.1 rfl hres).1, (h.2.1 rfl hres).2.2,
         (h.2.2.1 (by rfl) (by decide) (by rfl) rfl).1,
         (h.2.2.1 (by rfl) (by decide) (by rfl) rfl).2.2,
         (h.2.2.2 (by rfl) (by decide) (by decide) rfl rfl rfl).1,
         (h.2.2.2 (by rfl) (by decide) (by decide) rfl rfl rfl).2.1,
         (h.2.2.2 (by rfl) (by decide) (by decide) rfl rfl rfl).2.2⟩

/-- C4 (counterexample): in part_000, a request whose `publishType` is the
    unrecognized string `"banana"` leads to a publish call whose `status` field
    is exactly `"banana"` — not `"draft"` and outside the closed set
    {draft, publish, future}; the publish call is issued with it. -/
theorem c4_counterexample :
    jget ((P0.post envC reqD wP0G).wpSent.getD .null) "status" = some (.str "banana") ∧
    Json.str "banana" ≠ Json.str "draft" ∧
    Json.str "banana" ≠ Json.str "publish" ∧
    Json.str "banana" ≠ Json.str "future" ∧
    (P0.post envC reqD wP0G).calls = [Call.agodaLookup, Call.wpPublish true] := by
  refine ⟨rfl, by simp, by simp, by simp, rfl⟩

/-- Any value outside the three recognized strings normalizes to `draft` in RB. -/
theorem normalizePublishType_unrec (v : Option Json)
    (h1 : v ≠ some (.str "publish")) (h2 : v ≠ some (.str "future"))
    (h3 : v ≠ some (.str "draft")) :
    RB.normalizePublishType v = .draft := by
  unfold RB.normalizePublishType
  split
  · exact absurd rfl h1
  · exact absurd rfl h2
  · exact absurd rfl h3
  · rfl

/-- Any value outside the four recognized strings normalizes to `V1` in RB. -/
theorem normalizeVersion_unrec (v : Option Json)
    (h1 : v ≠ some (.str "V1")) (h2 : v ≠ some (.str "V2"))
    (h3 : v ≠ some (.str "V3")) (h4 : v ≠ some (.str "V4")) :
    RB.normalizeVersion v = .V1 := by
  unfold RB.normalizeVersion
  split
  · exact absurd rfl h1
  · exact absurd rfl h2
  · exact absurd rfl h3
  · exact absurd rfl h4
  · rfl

/-- When a P0 request omits both `publishType` and `status` and the run reaches
    the publish call, the body sent carries status `"draft"`. -/
theorem P0_omitted_status_draft (env : Env) (req : Req) (wd : P0.World)
    (b : Body) (pay : Json) (hb : req.body = .ok b)
    (hpt : bget b "publishType" = none) (hst : bget b "status" = none)
    (hsent : (P0.post env req wd).wpSent = some pay) :
    jget pay "status" = some (.str "draft") := by
  simp only [P0.post, hb, Except.toOption, Option.getD] at hsent
  repeat' first
    | exact Option.noConfusion hsent
    | (simp only [Option.some.injEq] at hsent
       subst hsent
       rw [hpt, hst]
       rfl)
    | split at hsent

/-- C4 (amended): RB normalizes `publishType` to the closed set
    {draft, publish, future} with default `draft` (any unrecognized value maps
    to `draft`), normalizes `version` to {V1..V4} with default `V1`, and the
    `status` field on the wire is the string of the normalized member; in
    part_000, when both `publishType` and `status` are omitted, the body sent
    to the blogging platform carries status `"draft"`.  (Part_000 passes a
    supplied `publishType` through unnormalized — see the counterexample.) -/
theorem c4_amended (v w : Option Json) (p : RB.WpParams) (now : JsDate)
    (env : Env) (req : Req) (wd : P0.World) (b : Body) (pay : Json)
    (hv1 : v ≠ some (.str "publish")) (hv2 : v ≠ some (.str "future"))
    (hv3 : v ≠ some (.str "draft"))
    (hw1 : w ≠ some (.str "V1")) (hw2 : w ≠ some (.str "V2"))
    (hw3 : w ≠ some (.str "V3")) (hw4 : w ≠ some (.str "V4"))
    (hb : req.body = .ok b)
    (hpt : bget b "publishType" = none) (hst : bget b "status" = none)
    (hsent : (P0.post env req wd).wpSent = some pay) :
    RB.normalizePublishType v = .draft ∧
    RB.normalizeVersion w = .V1 ∧
    jget (RB.wpBodyOf p now) "status" = some (.str (ptStr p.status)) ∧
    (p.status = .draft ∨ p.status = .publish ∨ p.status = .future) ∧
    jget pay "status" = some (.str "draft") := by
  refine ⟨normalizePublishType_unrec v hv1 hv2 hv3,
          normalizeVersion_unrec w hw1 hw2 hw3 hw4, rfl, ?_,
          P0_omitted_status_draft env req wd b pay hb hpt hst hsent⟩
  cases p.status with
  | draft => exact Or.inl rfl
  | publish => exact Or.inr (Or.inl rfl)
  | future => exact Or.inr (Or.inr rfl)

/-- The amended C4 statement instantiated at an unrecognized publish type and
    version, and at a concrete successful part_000 run with both `publishType`
    and `status` omitted. -/
theorem c4_amended_witness :
    RB.normalizePublishType (some (.str "banana")) = .draft ∧
    RB.normalizeVersion (some (.str "banana")) = .V1 ∧
    jget (RB.wpBodyOf pD dummyDate) "status" = some (.str (ptStr pD.status)) ∧
    (pD.status = .draft ∨ pD.status = .publish ∨ pD.status = .future) ∧
    jget (((P0.post envC reqE wP0G).wpSent).getD .null) "status" =
      some (.str "draft") :=
  c4_amended (some (.str "banana")) (some (.str "banana")) pD dummyDate
    envC reqE wP0G bodyE ((P0.post envC reqE wP0G).wpSent.getD .null)
    (by simp) (by simp) (by simp) (by simp) (by simp) (by simp) (by simp)
    rfl rfl rfl rfl

/-- C5 (counterexample): the RB document builder consults the random stream
    even though no `"random"` version selection exists in it at all — its FAQ,
    intro, checklist, tag and hashtag picks are drawn from `Math.random` on
    every call — so two invocations on identical arguments under different
    ambient randomness yield different HTML. -/
theorem utf16LenAux_eq (l : List Char) (acc : Nat) :
    utf16LenAux l acc = acc + (l.map utf16Count).sum := by
  induction l generalizing acc with
  | nil => simp [utf16LenAux]
  | cons c r ih =>
      have hc : 1 ≤ utf16Count c := by
        unfold utf16Count; split <;> omega
      simp only [utf16LenAux, List.map_cons, List.sum_cons]
      rw [if_neg (by omega), ih]
      omega

/-- The accumulator form of `jsLen` agrees with the plain UTF-16 unit sum. -/
theorem jsLen_eq (s : String) : jsLen s = (s.data.map utf16Count).sum := by
  simp [jsLen, utf16LenAux_eq]

set_option maxRecDepth 40000 in
/-- C5 (counterexample): the RB document builder consults the ambient random
    stream on every call — its FAQ, intro, checklist, tag and hashtag picks all
    come from `Math.random` with no version gate — so two invocations on
    identical arguments under different ambient randomness produce different
    HTML (here even of different lengths). -/
theorem c5_counterexample :
    RB.buildHtml cArgs5 (fun _ => 0) 0 ≠ RB.buildHtml cArgs5 (fun _ => 1) 0 :=
  fun h => absurd (congrArg jsLen h) (by decide)

/-- C5 (amended): the document builders of RA (`generatePostHTML`, a pure
    string template with no randomness), of part_001 (whose variant picks are
    seeded by a hash of its own inputs, so the embedding takes no random
    stream), and of part_000 for any fixed version other than `"random"` are
    deterministic functions of their arguments: two invocations on pairwise
    identical inputs produce byte-identical HTML — for part_000 even across
    arbitrary ambient random streams and draw positions.  The RB builder of
    route.ts is the exception: its FAQ, intro, checklist, tag and hashtag picks
    draw from `Math.random` unconditionally — see the counterexample. -/
theorem c5_amended (a : P0.BuildArgs) (g g' : RngStream) (k k' : Nat)
    (h : isStr a.version "random" = false)
    (kw kw' : Json) (hotel hotel' : RA.Hotel) (url url' : String) (ver ver' : Json)
    (h1 : kw = kw') (h2 : hotel = hotel') (h3 : url = url') (h4 : ver = ver')
    (o o' : SizeUrlOracle) (pb pb' : P1.BuildArgs) (h5 : o = o') (h6 : pb = pb') :
    P0.buildHtml a g k = P0.buildHtml a g' k' ∧
    RA.generatePostHTML kw hotel url ver = RA.generatePostHTML kw' hotel' url' ver' ∧
    P1.buildHtml o pb = P1.buildHtml o' pb' := by
  subst h1 h2 h3 h4 h5 h6
  exact ⟨by simp [P0.buildHtml, h], rfl, rfl⟩

/-- The amended C5 statement at a concrete fixed version `"V1"` with two
    unrelated random streams for part_000, and concrete repeated invocations of
    the RA and part_001 builders. -/
theorem c5_amended_witness :
    isStr aP0V1.version "random" = false ∧
    P0.buildHtml aP0V1 (fun _ => 0) 0 = P0.buildHtml aP0V1 (fun _ => 7) 5 ∧
    RA.generatePostHTML (Json.str "k") hotelW "https://a.example" (Json.str "V1") =
      RA.generatePostHTML (Json.str "k") hotelW "https://a.example" (Json.str "V1") ∧
    P1.buildHtml (fun _ _ => none) pbW = P1.buildHtml (fun _ _ => none) pbW :=
  ⟨rfl, c5_amended aP0V1 (fun _ => 0) (fun _ => 7) 0 5 rfl
    (Json.str "k") (Json.str "k") hotelW hotelW "https://a.example" "https://a.example"
    (Json.str "V1") (Json.str "V1") rfl rfl rfl rfl
    (fun _ _ => none) (fun _ _ => none) pbW pbW rfl rfl⟩

theorem daysInMonth_ge_one (y : Int) (m : Nat) : 1 ≤ daysInMonth y m := by
  unfold daysInMonth
  repeat' split
  all_goals omega

/-- Adding one day with `setDate` is the civil successor on valid dates. -/
theorem jsAddDays_one (d : JsDate) (h : ValidDate d) : jsAddDays d 1 = civilSucc d := by
  obtain ⟨h1, h2, h3, h4⟩ := h
  have hge : 1 ≤ daysInMonth (if d.month = 12 then d.year + 1 else d.year)
      (if d.month = 12 then 1 else d.month + 1) := daysInMonth_ge_one _ _
  unfold jsAddDays normDate civilSucc
  by_cases hd : d.day < daysInMonth d.year d.month
  · rw [if_neg (by simp; omega), if_pos hd]
  · have hdd : d.day = daysInMonth d.year d.month := le_antisymm h4 (not_lt.mp hd)
    rw [if_pos (by simp; omega), if_neg hd]
    unfold normDate
    rw [if_neg (by simp; omega)]
    simp [hdd]

/-- C6 (counterexample): in part_000 a `"future"` publish with no supplied date
    sends a body whose `status` is `"future"` but which carries no `date` field
    at all — the tomorrow-09:00 default of the other variants is absent, and
    the platform is left to schedule as it pleases. -/
theorem c6_counterexample :
    jget (((P0.post envC reqF wP0G).wpSent).getD .null) "status" =
      some (.str "future") ∧
    jget (((P0.post envC reqF wP0G).wpSent).getD .null) "date" = none :=
  ⟨rfl, rfl⟩

/-- C6 (amended): in the RB handler of route.ts and in part_001, a `"future"`
    publish with no `publishAt` carries the default scheduled date: the civil
    next day of the current date at 09:00:00.000 local server time, rendered in
    ISO form.  (Part_000 sends no date at all in this case — see the
    counterexample.) -/
theorem c6_amended (p : RB.WpParams) (q : P1.WpParams) (now : JsDate)
    (hv : ValidDate now)
    (hp : p.status = .future) (hpa : p.publishAt = none)
    (hq : P1.finalStatusOf q.status = .future) (hqa : q.publishAt = none) :
    jget (RB.wpBodyOf p now) "date" =
      some (.str (isoRender (jsSetHours (civilSucc now) 9 0 0 0))) ∧
    jget (P1.wpBodyOf q now) "date" =
      some (.str (isoRender (jsSetHours (civilSucc now) 9 0 0 0))) := by
  have hd1 : jsOrS p.publishAt (isoRender (jsSetHours (jsAddDays now 1) 9 0 0 0)) =
      isoRender (jsSetHours (civilSucc now) 9 0 0 0) := by
    rw [hpa, jsAddDays_one now hv]
    rfl
  have hd2 : jsOrS q.publishAt (isoRender (jsSetHours (jsAddDays now 1) 9 0 0 0)) =
      isoRender (jsSetHours (civilSucc now) 9 0 0 0) := by
    rw [hqa, jsAddDays_one now hv]
    rfl
  constructor
  · cases hs : optTruthy p.slug <;> cases he : optTruthy p.seoDescription <;>
      simp [RB.wpBodyOf, jget, getF, hs, he, hp, hd1]
  · cases hs : optTruthy q.slug <;> cases he : optTruthy q.seoDescription <;>
      simp [P1.wpBodyOf, jget, getF, hs, he, hq, hd2]

/-- The amended C6 statement at concrete scheduling parameters and the concrete
    valid current date. -/
theorem c6_amended_witness :
    ValidDate dummyDate ∧
    jget (RB.wpBodyOf pF dummyDate) "date" =
      some (.str (isoRender (jsSetHours (civilSucc dummyDate) 9 0 0 0))) ∧
    jget (P1.wpBodyOf qF dummyDate) "date" =
      some (.str (isoRender (jsSetHours (civilSucc dummyDate) 9 0 0 0))) :=
  ⟨by unfold ValidDate; decide,
   c6_amended pF qF dummyDate (by unfold ValidDate; decide) rfl rfl rfl rfl⟩

/-- C7 (counterexample): a part_000 run in which the category creation and the
    featured-media upload (and its alt-text update) all mutate the blogging
    platform, yet the final publish fails — the response is a 502 and no post
    exists, but external state has been modified: there is a partial-success
    state. -/
theorem c7_counterexample :
    (P0.post envC reqG wP0H).resp.status = 502 ∧
    (P0.post envC reqG wP0H).calls.filter mutatingCall =
      [Call.categoryCreate true, Call.mediaUpload true, Call.mediaAltUpdate] ∧
    Call.wpPublish true ∉ (P0.post envC reqG wP0H).calls := by
  refine ⟨rfl, rfl, by decide⟩

/-- The RA hotel lookup never issues a mutating call. -/
theorem RA_lookup_filter (env : Env) (resp : FetchResp) (hid : Json) :
    ((RA.agodaGetHotelById env resp hid).2).filter mutatingCall = [] := by
  unfold RA.agodaGetHotelById
  dsimp only
  repeat' split
  all_goals rfl

/-- The RA publish step issues exactly one successful mutating call when it
    returns `ok`, and none when it throws. -/
theorem RA_pub_filter (env : Env) (resp : FetchResp) (t c : String) (pt : Json)
    (cat : Option Int) :
    ((RA.publishToWordPress env resp t c pt cat).2.1).filter mutatingCall =
      (match (RA.publishToWordPress env resp t c pt cat).1 with
       | .ok _ => [Call.wpPublish true]
       | .error _ => []) := by
  unfold RA.publishToWordPress
  dsimp only
  repeat' split
  all_goals simp_all [mutatingCall]

/-- Equation form of `RA_lookup_filter`. -/
theorem RA_lookup_filter2 (env : Env) (resp : FetchResp) (hid : Json)
    (x : Except JsError Json × List Call)
    (h : RA.agodaGetHotelById env resp hid = x) :
    (x.2).filter mutatingCall = [] := by
  subst h
  exact RA_lookup_filter env resp hid

/-- Equation form of `RA_pub_filter`. -/
theorem RA_pub_filter2 (env : Env) (resp : FetchResp) (t c : String) (pt : Json)
    (cat : Option Int) (x : Except JsError Json × List Call × Option Json)
    (h : RA.publishToWordPress env resp t c pt cat = x) :
    (x.2.1).filter mutatingCall =
      (match x.1 with
       | .ok _ => [Call.wpPublish true]
       | .error _ => []) := by
  subst h
  exact RA_pub_filter env resp t c pt cat

/-- C7 (amended): the RA handler of route.ts has no partial-success state: a
    200 response happens exactly when the one and only mutating outbound call
    is a successful publish, and any non-200 response leaves external state
    untouched (its lookup is read-only and a failed publish mutates nothing).
    Part_000 does not have this property: it creates categories and uploads
    media before the publish — see the counterexample. -/
theorem c7_amended (env : Env) (req : Req) (w : RA.World) :
    ((RA.post env req w).resp.status = 200 →
      (RA.post env req w).calls.filter mutatingCall = [Call.wpPublish true]) ∧
    ((RA.post env req w).resp.status ≠ 200 →
      (RA.post env req w).calls.filter mutatingCall = []) := by
  unfold RA.post
  split
  · exact ⟨fun h => by simp at h, fun _ => rfl⟩
  · split
    · exact ⟨fun h => by simp [RA.catchResp] at h, fun _ => rfl⟩
    · dsimp only
      split
      · exact ⟨fun h => by simp at h, fun _ => rfl⟩
      · split
        · rename_i e cs heq
          have hf := RA_lookup_filter2 env w.agoda _ _ heq
          simp only at hf
          exact ⟨fun h => by simp [RA.catchResp] at h, fun _ => hf⟩
        · rename_i r cs heq
          have hf := RA_lookup_filter2 env w.agoda _ _ heq
          simp only at hf
          split
          · exact ⟨fun h => by simp [RA.catchResp] at h, fun _ => hf⟩
          · split
            · rename_i e2 cs2 sent heq2
              have hp := RA_pub_filter2 env w.wp _ _ _ _ _ heq2
              simp only at hp
              exact ⟨fun h => by simp [RA.catchResp] at h,
                     fun _ => by simp [List.filter_append, hf, hp]⟩
            · rename_i j2 cs2 sent heq2
              have hp := RA_pub_filter2 env w.wp _ _ _ _ _ heq2
              simp only at hp
              exact ⟨fun _ => by simp [List.filter_append, hf, hp],
                     fun h => absurd rfl h⟩

/-- The amended C7 statement at a concrete success run and a concrete failed
    lookup run of the RA handler. -/
theorem c7_amended_witness :
    (RA.post envC reqC wRAS).resp.status = 200 ∧
    (RA.post envC reqC wRAS).calls.filter mutatingCall = [Call.wpPublish true] ∧
    (RA.post envC reqC wRAF).resp.status ≠ 200 ∧
    (RA.post envC reqC wRAF).calls.filter mutatingCall = [] :=
  ⟨rfl, (c7_amended envC reqC wRAS).1 rfl, by decide,
   (c7_amended envC reqC wRAF).2 (by decide)⟩

/-- C8 (counterexample): in the RA handler of route.ts a missing affiliate
    configuration value surfaces through the catch-all as HTTP 502 — the body
    does name the missing variable, but the status is not the 500 the
    specification promises for configuration errors. -/
theorem c8_counterexample :
    (RA.post envD reqC wRA0).resp.status = 502 ∧
    jget (RA.post envD reqC wRA0).resp.body "error" =
      some (.str "Missing env: AGODA_SITE_ID") ∧
    (RA.post envD reqC wRA0).resp.status ≠ 500 := by
  refine ⟨rfl, rfl, by decide⟩

/-- C8 (amended): part_000 answers a 500 listing every missing configuration
    name whenever any of its five required variables is unset; part_001's
    publish step throws an error naming the missing variable (surfaced by its
    catch-all as a 500); the RB handler of route.ts answers 500 naming
    `API_KEY` when the inbound key is unconfigured.  The RA handler instead
    surfaces missing configuration as a 502 — see the counterexample. -/
theorem c8_amended (env env2 : Env) (req req2 : Req) (w : P0.World) (w2 : RB.World)
    (resp : FetchResp) (p : P1.WpParams) (now : JsDate)
    (hauth : (falsyS env.API_KEY ||
      decide ((req.apiKeyHeader.getD "") ≠ (env.API_KEY.getD ""))) = false)
    (hneed : P0.missingEnv env
      ["WP_URL", "WP_USERNAME", "WP_APP_PASSWORD", "AGODA_SITE_ID", "AGODA_API_KEY"] ≠ [])
    (hwp : falsyS env.WP_URL = true)
    (hak : falsyS env2.API_KEY = true) :
    ((P0.post env req w).resp.status = 500 ∧
     jget (P0.post env req w).resp.body "error" = some (.str "Missing env vars") ∧
     jget (P0.post env req w).resp.body "missing" =
       some (.arr ((P0.missingEnv env
         ["WP_URL", "WP_USERNAME", "WP_APP_PASSWORD", "AGODA_SITE_ID",
          "AGODA_API_KEY"]).map Json.str))) ∧
    P1.wpCreatePost env resp p now = (.error ⟨"Missing env: WP_URL", none⟩, [], none) ∧
    ((RB.post env2 req2 w2).resp.status = 500 ∧
     jget (RB.post env2 req2 w2).resp.body "error" =
       some (.str "Missing env: API_KEY")) := by
  simp only [Bool.or_eq_false_iff, decide_eq_false_iff_not, ne_eq, not_not] at hauth
  refine ⟨⟨?_, ?_, ?_⟩, ?_, ?_, ?_⟩
  · simp [P0.post, hauth.1, hauth.2, hneed]
  · simp [P0.post, hauth.1, hauth.2, hneed, jget, getF]
  · simp [P0.post, hauth.1, hauth.2, hneed, jget, getF]
  · simp [P1.wpCreatePost, hwp]
  · simp [RB.post, hak, RB.jsonError]
  · simp [RB.post, hak, RB.jsonError, jget, getF]

/-- The amended C8 statement at concrete environments missing the blog URL and
    the inbound key. -/
theorem c8_amended_witness :
    ((P0.post envE reqC wP00).resp.status = 500 ∧
     jget (P0.post envE reqC wP00).resp.body "error" = some (.str "Missing env vars") ∧
     jget (P0.post envE reqC wP00).resp.body "missing" =
       some (.arr ((P0.missingEnv envE
         ["WP_URL", "WP_USERNAME", "WP_APP_PASSWORD", "AGODA_SITE_ID",
          "AGODA_API_KEY"]).map Json.str))) ∧
    P1.wpCreatePost envE dummyResp qF dummyDate =
      (.error ⟨"Missing env: WP_URL", none⟩, [], none) ∧
    ((RB.post envF reqC wRB0).resp.status = 500 ∧
     jget (RB.post envF reqC wRB0).resp.body "error" =
       some (.str "Missing env: API_KEY")) :=
  c8_amended envE envF reqC reqC wP00 wRB0 dummyResp qF dummyDate
    (by decide) (by decide) rfl rfl
